import Mathlib

/-!
Verification development for the pipeline-construction module
`biobakery_workflows/tasks/whole_genome_shotgun.py`.

The module builds a static task graph by calling an external workflow
collaborator (`name_output_files`, `add_task`, `add_task_group_gridable`).
The collaborator itself is not part of the source tree, so it is modelled
from the specification (output naming, command-template placeholder
validation, batch zipping, resource annotation); the three stage functions
`quality_control`, `taxonomic_profile` and `functional_profile` are
translated line by line from the source.

File identifiers are modelled as structured paths (a directory component
list plus a base file name); command templates remain plain strings, as in
the source, and placeholder references are extracted from them by a
character-level scanner.
-/

deriving instance DecidableEq for Except

namespace WGS

/-- A file identifier: the directory (as a list of path components, the
workflow output root first) and the base file name.  `dir` models what
`os.path.dirname` returns on the rendered path. -/
structure Path where
  dir : List String
  base : String
deriving DecidableEq, Repr

/-- The three kinds of placeholder references a command template may hold:
dependency references, target references and auxiliary-argument
references. -/
inductive RefKind where
  | dep
  | tgt
  | arg
deriving DecidableEq, Repr

/-- An auxiliary argument value handed to a task: a directory (what the
source obtains from `os.path.dirname`), a number (thread counts), or a
plain string (a tag). -/
inductive Arg where
  | dirArg (d : List String)
  | natArg (n : Nat)
  | strArg (s : String)
deriving DecidableEq, Repr

/-- The `databases` parameter of `quality_control`: the source accepts a
single string or a list of strings (`isinstance(databases, list)`). -/
inductive Databases where
  | single (db : String)
  | listOf (dbs : List String)
deriving DecidableEq, Repr

/-- Construction-time errors.  `indexError` models Python's IndexError on
list indexing; `lengthMismatch` and `placeholderOutOfRange` are the
construction errors of the spec's error taxonomy; `invalidInput` models
the InvalidInput / MissingUpstreamOutput error class the spec asks for
(with a message naming the offending stage) -- the source never raises
it. -/
inductive Err where
  | indexError
  | lengthMismatch
  | placeholderOutOfRange
  | invalidInput (stage : String)
deriving DecidableEq, Repr

/-- The numeric value of a digit character, if it is one. -/
def digitVal (c : Char) : Option Nat :=
  if '0' ≤ c ∧ c ≤ '9' then some (c.toNat - '0'.toNat) else none

/-- After one of the marker heads `[depends[`, `[targets[`, `[args[` has
been recognised, read the single digit index and the closing `]]`.
Modelled from the spec: the templater's zero-indexed placeholder markers
(the source's templates only ever use single-digit indices). -/
def tailRef (k : RefKind) (l : List Char) : Option (RefKind × Nat) :=
  match l with
  | c :: d :: e :: _ =>
      if d = ']' ∧ e = ']' then (digitVal c).map (fun n => (k, n)) else none
  | _ => none

/-- Try to parse a placeholder marker starting at the head of `l`. -/
def tryRef (l : List Char) : Option (RefKind × Nat) :=
  if ("[depends[".data).isPrefixOf l then tailRef RefKind.dep (l.drop 9)
  else if ("[targets[".data).isPrefixOf l then tailRef RefKind.tgt (l.drop 9)
  else if ("[args[".data).isPrefixOf l then tailRef RefKind.arg (l.drop 6)
  else none

/-- All placeholder references of a character list: at every position, a
marker starting there is recorded.  Modelled from the spec: the set of
dependency/target/argument references a command template makes. -/
def refs : List Char → List (RefKind × Nat)
  | [] => []
  | c :: rest => (tryRef (c :: rest)).toList ++ refs rest

/-- The number of positions at which `pat` occurs in `l`. -/
def occurs (pat : List Char) : List Char → Nat
  | [] => 0
  | c :: rest => (if pat.isPrefixOf (c :: rest) then 1 else 0) + occurs pat rest

/-- Occurrence count of one string inside another. -/
def occursStr (pat s : String) : Nat := occurs pat.data s.data

/-- Does one placeholder reference resolve against the given dependency,
target and argument sequence lengths? -/
def refOK (nd nt na : Nat) : RefKind × Nat → Bool
  | (RefKind.dep, i) => i < nd
  | (RefKind.tgt, i) => i < nt
  | (RefKind.arg, i) => i < na

/-- Every placeholder reference of the template resolves against the given
sequence lengths.  Modelled from the spec: an out-of-range marker is a
construction-time error, checked before any command string is produced. -/
def templateOK (template : String) (nd nt na : Nat) : Bool :=
  (refs template.data).all (refOK nd nt na)

/-- One registered Single Task. -/
structure SingleTask where
  template : String
  depends : List Path
  targets : List Path
  args : List Arg
deriving DecidableEq, Repr

/-- One registered Task Group: a shared template, a batch of dependency
tuples zipped against an equal-length batch of target tuples, shared
auxiliary arguments and a shared resource profile (time in minutes, memory
in MB, cpu count). -/
structure GroupTask where
  template : String
  depends : List (List Path)
  targets : List (List Path)
  args : List Arg
  time : Nat
  mem : Nat
  cpus : Nat
deriving DecidableEq, Repr

/-- The workflow collaborator state: the output root directory and the
tasks registered so far.  Modelled from the spec's collaborator
contract. -/
structure Workflow where
  outdir : List String
  singles : List SingleTask
  groups : List GroupTask
deriving DecidableEq, Repr

/-- Derive one output identifier from one input identifier.  Modelled from
the spec (Output Namer): the base name becomes `base.tag.extension` with
omitted segments dropped, relocated under `outdir/subfolder` (with no
subfolder the input's own directory is kept). -/
def nameOne (outdir : List String) (tag subfolder extension : Option String)
    (p : Path) : Path :=
  { dir := match subfolder with
      | some s => outdir ++ [s]
      | none => p.dir
    base := match tag, extension with
      | some t, some e => p.base ++ ("." ++ t ++ "." ++ e)
      | some t, none => p.base ++ ("." ++ t)
      | none, some e => p.base ++ ("." ++ e)
      | none, none => p.base }

/-- Modelled from the spec: the collaborator's `name_output_files` on a
batch of input identifiers (one output identifier per input, in order). -/
def Workflow.name_output_files (w : Workflow) (names : List Path)
    (tag subfolder extension : Option String) : List Path :=
  names.map (nameOne w.outdir tag subfolder extension)

/-- Modelled from the spec: the collaborator's `name_output_files` on a
single bare name (used for the cohort-level merged tables). -/
def Workflow.name_output_file (w : Workflow) (name : String)
    (tag subfolder extension : Option String) : Path :=
  nameOne w.outdir tag subfolder extension { dir := w.outdir, base := name }

/-- Python list indexing: `l[i]`, raising IndexError when out of range. -/
def pyGet {α : Type} (l : List α) (i : Nat) : Except Err α :=
  match l.get? i with
  | some x => Except.ok x
  | none => Except.error Err.indexError

/-- Python's `sep.join(parts)`. -/
def joinWith (sep : String) : List String → String
  | [] => ""
  | [d] => d
  | d :: ds => d ++ sep ++ joinWith sep ds

/-- Modelled from the spec: registering one Single Task.  Placeholder
references are validated at construction time. -/
def Workflow.add_task (w : Workflow) (template : String)
    (depends targets : List Path) (args : List Arg) : Except Err Workflow :=
  if templateOK template depends.length targets.length args.length then
    Except.ok { w with
      singles := w.singles ++ [⟨template, depends, targets, args⟩] }
  else Except.error Err.placeholderOutOfRange

/-- Modelled from the spec: registering one gridable Task Group.  The
dependency and target batches must have equal length, and every task of
the group (one per batch index) must have all template placeholders
resolve; violations fail construction. -/
def Workflow.add_task_group_gridable (w : Workflow) (template : String)
    (depends targets : List (List Path)) (args : List Arg)
    (time mem cpus : Nat) : Except Err Workflow :=
  if depends.length ≠ targets.length then Except.error Err.lengthMismatch
  else if (depends.zip targets).all
      (fun dt => templateOK template dt.1.length dt.2.length args.length) then
    Except.ok { w with
      groups := w.groups ++ [⟨template, depends, targets, args, time, mem, cpus⟩] }
  else Except.error Err.placeholderOutOfRange

/-- Python `zip(a, b)` with each pair used as a dependency or target
tuple; truncates to the shorter list as Python's zip does. -/
def zipPair (as bs : List Path) : List (List Path) :=
  List.zipWith (fun a b => [a, b]) as bs

/-- Python `zip(a, b, c)` (used for target triples); truncates to the
shortest list. -/
def zip3 (as bs cs : List Path) : List (List Path) :=
  List.zipWith (fun a bc => [a, bc.1, bc.2]) as (bs.zip cs)

/-- Each element of a plain list used as a one-element dependency or
target tuple (the collaborator's normalization of a flat batch). -/
def singletons (l : List Path) : List (List Path) :=
  l.map (fun f => [f])

/-- The fixed part of the kneaddata command template (source line 82). -/
def qcBaseTemplate : String :=
  "kneaddata --input [depends[0]] --output [args[0]] --threads [args[1]] "

/-- The database command option string of `quality_control` (source lines
72-78): empty for `None`, one pre-rendered `--reference-db` clause per
database for a list, a single clause for a bare string. -/
def optionalDatabaseArgs : Option Databases → String
  | none => ""
  | some (Databases.listOf dbs) =>
      " --reference-db " ++ joinWith " --reference-db " dbs
  | some (Databases.single db) => " --reference-db " ++ db

/-- `quality_control(workflow, input_files, threads, databases=None)`,
translated from source lines 66-90. -/
def quality_control (workflow : Workflow) (input_files : List Path)
    (threads : Nat) (databases : Option Databases) :
    Except Err (Workflow × List Path) :=
  let kneaddata_output_files :=
    workflow.name_output_files input_files (some "kneaddata") (some "kneaddata") none
  match pyGet kneaddata_output_files 0 with
  | Except.error e => Except.error e
  | Except.ok first =>
    let kneaddata_output_folder := first.dir
    let optional_database_args := optionalDatabaseArgs databases
    match workflow.add_task_group_gridable
        (qcBaseTemplate ++ optional_database_args)
        (singletons input_files)
        (singletons kneaddata_output_files)
        [Arg.dirArg kneaddata_output_folder, Arg.natArg threads]
        (6 * 60) (12 * 1024) threads with
    | Except.error e => Except.error e
    | Except.ok workflow1 => Except.ok (workflow1, kneaddata_output_files)

/-- `taxonomic_profile(workflow, input_files, threads)`, translated from
source lines 135-162. -/
def taxonomic_profile (workflow : Workflow) (input_files : List Path)
    (threads : Nat) :
    Except Err (Workflow × Path × List Path × List Path) :=
  let metaphlan2_profile_tag := "taxonomic_profile"
  let metaphlan2_output_files_profile :=
    workflow.name_output_files input_files (some metaphlan2_profile_tag)
      (some "metaphlan2") (some "tsv")
  let metaphlan2_output_files_sam :=
    workflow.name_output_files input_files (some "bowtie2")
      (some "metaphlan2") (some "sam")
  match pyGet metaphlan2_output_files_profile 0 with
  | Except.error e => Except.error e
  | Except.ok first =>
    let metaphlan2_output_folder := first.dir
    match workflow.add_task_group_gridable
        "metaphlan2.py [depends[0]] --input_type fastq --output_file [targets[0]] --samout [targets[1]] --nproc [args[0]] --no_map --tmp_dir [args[1]]"
        (singletons input_files)
        (zipPair metaphlan2_output_files_profile metaphlan2_output_files_sam)
        [Arg.natArg threads, Arg.dirArg metaphlan2_output_folder]
        (3 * 60) (12 * 1024) threads with
    | Except.error e => Except.error e
    | Except.ok workflow1 =>
      let metaphlan2_merged_output :=
        workflow.name_output_file "taxonomic_profiles.tsv" none none none
      match workflow1.add_task
          "humann2_join_tables --input [args[0]] --output [targets[0]] --file_name [args[1]]"
          metaphlan2_output_files_profile
          [metaphlan2_merged_output]
          [Arg.dirArg metaphlan2_output_folder, Arg.strArg metaphlan2_profile_tag] with
      | Except.error e => Except.error e
      | Except.ok workflow2 =>
          Except.ok (workflow2, metaphlan2_merged_output,
            metaphlan2_output_files_profile, metaphlan2_output_files_sam)

/-- Python truthiness of the optional `taxonomic_profiles` argument:
false for `None` and for an empty list. -/
def truthy : Option (List Path) → Bool
  | none => false
  | some l => !l.isEmpty

/-- The loop body of the final merge loop of `functional_profile` (source
lines 269-274): one cohort-level join task over the per-sample normalized
files of one output kind. -/
def mergeTask (w : Workflow) (depends : List Path) (target : Path) :
    Except Err Workflow :=
  match pyGet depends 0 with
  | Except.error e => Except.error e
  | Except.ok first =>
      w.add_task "humann2_join_tables --input [args[0]] --output [targets[0]]"
        depends [target] [Arg.dirArg first.dir]

/-- `functional_profile(workflow, input_files, threads,
taxonomic_profiles=None)`, translated from source lines 203-276. -/
def functional_profile (workflow : Workflow) (input_files : List Path)
    (threads : Nat) (taxonomic_profiles : Option (List Path)) :
    Except Err (Workflow × Path × Path × Path) :=
  let genefamiles :=
    workflow.name_output_files input_files (some "genefamilies") (some "humann2") (some "tsv")
  let pathabundance :=
    workflow.name_output_files input_files (some "pathabundance") (some "humann2") (some "tsv")
  let pathcoverage :=
    workflow.name_output_files input_files (some "pathcoverage") (some "humann2") (some "tsv")
  match pyGet genefamiles 0 with
  | Except.error e => Except.error e
  | Except.ok firstGene =>
    let humann2_output_folder := firstGene.dir
    let optional_profile_args :=
      if truthy taxonomic_profiles then " --taxonomic-profile [depends[1]] " else ""
    let depends :=
      if truthy taxonomic_profiles then
        zipPair input_files (taxonomic_profiles.getD [])
      else singletons input_files
    match workflow.add_task_group_gridable
        ("humann2 --input [depends[0]] --output [args[0]] --threads [args[1]]" ++ optional_profile_args)
        depends
        (zip3 genefamiles pathabundance pathcoverage)
        [Arg.dirArg humann2_output_folder, Arg.natArg threads]
        (24 * 60) (36 * 1024) threads with
    | Except.error e => Except.error e
    | Except.ok workflow1 =>
      let ec_files :=
        workflow.name_output_files genefamiles (some "ecs") (some "humann2") none
      match workflow1.add_task_group_gridable
          "humann2_regroup_table --input [depends[0]] --output [targets[0]] --groups uniref90_level4ec"
          (singletons genefamiles) (singletons ec_files)
          [] (10 * 60) (5 * 1024) 1 with
      | Except.error e => Except.error e
      | Except.ok workflow2 =>
        let norm_genefamily_files :=
          workflow.name_output_files genefamiles (some "relab") (some "genes") none
        let norm_ec_files :=
          workflow.name_output_files ec_files (some "relab") (some "ecs") none
        let norm_pathabundance_files :=
          workflow.name_output_files pathabundance (some "relab") (some "pathways") none
        match workflow2.add_task_group_gridable
            "humann2_renorm_table --input [depends[0]] --output [targets[0]] --units relab"
            (singletons (genefamiles ++ ec_files ++ pathabundance))
            (singletons (norm_genefamily_files ++ norm_ec_files ++ norm_pathabundance_files))
            [] (5 * 60) (5 * 1024) 1 with
        | Except.error e => Except.error e
        | Except.ok workflow3 =>
          let merged_genefamilies :=
            workflow.name_output_file "genefamilies_relab.tsv" none none none
          let merged_ecs :=
            workflow.name_output_file "ecs_relab.tsv" none none none
          let merged_pathabundance :=
            workflow.name_output_file "pathabundance_relab.tsv" none none none
          match mergeTask workflow3 norm_genefamily_files merged_genefamilies with
          | Except.error e => Except.error e
          | Except.ok workflow4 =>
            match mergeTask workflow4 norm_ec_files merged_ecs with
            | Except.error e => Except.error e
            | Except.ok workflow5 =>
              match mergeTask workflow5 norm_pathabundance_files merged_pathabundance with
              | Except.error e => Except.error e
              | Except.ok workflow6 =>
                  Except.ok (workflow6, merged_genefamilies, merged_ecs,
                    merged_pathabundance)

/-! ### Machinery: appending to a scanned character list

The qc command template is a concrete prefix followed by a caller-supplied
database fragment.  The lemmas below let the scanners (`refs`, `occurs`)
be decomposed across such an append, with all concrete side conditions
discharged by `decide`. -/

theorem data_append (a b : String) : (a ++ b).data = a.data ++ b.data := rfl

/-- Appending cannot change a prefix test that already fits inside the
first list. -/
theorem isPrefixOf_append_of_le (pat t s : List Char) (h : pat.length ≤ t.length) :
    pat.isPrefixOf (t ++ s) = pat.isPrefixOf t := by
  by_cases hp : pat <+: t
  · rw [List.isPrefixOf_iff_prefix.mpr hp,
      List.isPrefixOf_iff_prefix.mpr (hp.trans (t.prefix_append s))]
  · have h1 : ¬ pat <+: (t ++ s) := by
      intro hc
      apply hp
      have he := List.prefix_iff_eq_take.mp hc
      rw [List.take_append_eq_append_take, Nat.sub_eq_zero_of_le h,
        List.take_zero, List.append_nil] at he
      rw [he]
      exact List.take_prefix _ _
    rw [(Bool.not_eq_true _).mp (fun hx => h1 (List.isPrefixOf_iff_prefix.mp hx)),
      (Bool.not_eq_true _).mp (fun hx => hp (List.isPrefixOf_iff_prefix.mp hx))]

/-- A prefix test fails when the two lists differ at some position inside
the pattern. -/
theorem isPrefixOf_eq_false_of_get (pat l : List Char) (j : Nat)
    (hj : j < pat.length) (hne : pat[j]? ≠ l[j]?) : pat.isPrefixOf l = false := by
  rw [← Bool.not_eq_true, List.isPrefixOf_iff_prefix]
  intro hc
  obtain ⟨r, hr⟩ := hc
  exact hne (by rw [← hr, List.getElem?_append_left hj])

/-- A prefix test fails when the scanned list is shorter than the
pattern. -/
theorem isPrefixOf_eq_false_of_lt (pat l : List Char) (h : l.length < pat.length) :
    pat.isPrefixOf l = false := by
  rw [← Bool.not_eq_true, List.isPrefixOf_iff_prefix]
  intro hc
  exact absurd hc.length_le (by omega)

/-- The two lists differ at some position that lies inside both the
pattern and the scanned list. -/
def stableBool (pat t : List Char) : Bool :=
  (List.range (min t.length pat.length)).any fun j => pat[j]? != t[j]?

theorem isPrefixOf_eq_false_of_stable (pat t : List Char)
    (h : stableBool pat t = true) : pat.isPrefixOf t = false := by
  obtain ⟨j, hj, hne⟩ := List.any_eq_true.mp h
  have hjm := List.mem_range.mp hj
  exact isPrefixOf_eq_false_of_get pat t j (by omega) (by simpa using hne)

theorem isPrefixOf_append_eq_false_of_stable (pat t s : List Char)
    (h : stableBool pat t = true) : pat.isPrefixOf (t ++ s) = false := by
  obtain ⟨j, hj, hne⟩ := List.any_eq_true.mp h
  have hjm := List.mem_range.mp hj
  have hne' : pat[j]? ≠ t[j]? := by simpa using hne
  exact isPrefixOf_eq_false_of_get pat (t ++ s) j (by omega)
    (by rw [List.getElem?_append_left (by omega)]; exact hne')

/-- Decomposing an occurrence count across an append, given that no
occurrence can straddle the boundary. -/
theorem occurs_append_pointwise (pat l₁ l₂ : List Char)
    (h : ∀ t, t <:+ l₁ → t ≠ [] → pat.isPrefixOf (t ++ l₂) = pat.isPrefixOf t) :
    occurs pat (l₁ ++ l₂) = occurs pat l₁ + occurs pat l₂ := by
  induction l₁ with
  | nil => simp [occurs]
  | cons c l ih =>
      have h1 := h (c :: l) (List.suffix_refl _) (by simp)
      have ihh := ih (fun t ht hne => h t (ht.trans (List.suffix_cons c l)) hne)
      simp only [List.cons_append, occurs, List.append_eq] at h1 ⊢
      simp only [h1, ihh]
      omega

/-- Decomposing the reference scan across an append, given that no marker
parse can straddle the boundary. -/
theorem refs_append_pointwise (l₁ l₂ : List Char)
    (h : ∀ t, t <:+ l₁ → t ≠ [] → tryRef (t ++ l₂) = tryRef t) :
    refs (l₁ ++ l₂) = refs l₁ ++ refs l₂ := by
  induction l₁ with
  | nil => simp [refs]
  | cons c l ih =>
      have h1 := h (c :: l) (List.suffix_refl _) (by simp)
      have ihh := ih (fun t ht hne => h t (ht.trans (List.suffix_cons c l)) hne)
      simp only [List.cons_append, refs, List.append_eq] at h1 ⊢
      simp only [h1, ihh]
      rw [List.append_assoc]

theorem tailRef_append (k : RefKind) (u s : List Char) (h : 3 ≤ u.length) :
    tailRef k (u ++ s) = tailRef k u := by
  rcases u with _ | ⟨a, _ | ⟨b, _ | ⟨c, u'⟩⟩⟩ <;> simp_all [tailRef]

theorem tryRef_append_of_12 (t s : List Char) (h : 12 ≤ t.length) :
    tryRef (t ++ s) = tryRef t := by
  have l9 : ("[depends[".data).length = 9 := rfl
  have l9' : ("[targets[".data).length = 9 := rfl
  have l6 : ("[args[".data).length = 6 := rfl
  have hd9 : (t ++ s).drop 9 = t.drop 9 ++ s := by
    rw [List.drop_append_eq_append_drop, Nat.sub_eq_zero_of_le (by omega), List.drop_zero]
  have hd6 : (t ++ s).drop 6 = t.drop 6 ++ s := by
    rw [List.drop_append_eq_append_drop, Nat.sub_eq_zero_of_le (by omega), List.drop_zero]
  unfold tryRef
  rw [isPrefixOf_append_of_le _ t s (by omega), isPrefixOf_append_of_le _ t s (by omega),
    isPrefixOf_append_of_le _ t s (by omega), hd9, hd6,
    tailRef_append _ _ _ (by rw [List.length_drop]; omega),
    tailRef_append _ _ _ (by rw [List.length_drop]; omega),
    tailRef_append _ _ _ (by rw [List.length_drop]; omega)]

theorem tryRef_head_ne (l : List Char) (h : l[0]? ≠ some '[') : tryRef l = none := by
  have h1 : ∀ pat : List Char, pat[0]? = some '[' → pat.isPrefixOf l = false := by
    intro pat hp
    refine isPrefixOf_eq_false_of_get pat l 0 ?_ ?_
    · cases pat with
      | nil => simp at hp
      | cons a r => simp
    · rw [hp]; exact fun e => h e.symm
  unfold tryRef
  rw [h1 _ rfl, h1 _ rfl, h1 _ rfl]
  rfl

/-- A decidable sufficient condition for a marker parse at the start of
`t` to be unaffected by whatever follows `t`. -/
def tryRefStable (t : List Char) : Bool :=
  decide (t[0]? ≠ some '[') || decide (12 ≤ t.length) ||
    (stableBool "[depends[".data t && stableBool "[targets[".data t &&
      (stableBool "[args[".data t || decide (9 ≤ t.length)))

theorem tryRef_append_of_stable (t s : List Char) (ht : t ≠ [])
    (h : tryRefStable t = true) : tryRef (t ++ s) = tryRef t := by
  simp only [tryRefStable, Bool.or_eq_true, Bool.and_eq_true, decide_eq_true_eq] at h
  have hhead : (t ++ s)[0]? = t[0]? := by
    rcases t with _ | ⟨c, t'⟩
    · exact absurd rfl ht
    · simp
  rcases h with (h | h) | ⟨⟨hd, htg⟩, ha⟩
  · rw [tryRef_head_ne _ (by rw [hhead]; exact h), tryRef_head_ne _ h]
  · exact tryRef_append_of_12 t s h
  · unfold tryRef
    rw [isPrefixOf_append_eq_false_of_stable _ _ _ hd, isPrefixOf_eq_false_of_stable _ _ hd,
      isPrefixOf_append_eq_false_of_stable _ _ _ htg, isPrefixOf_eq_false_of_stable _ _ htg]
    rcases ha with ha | h9
    · rw [isPrefixOf_append_eq_false_of_stable _ _ _ ha, isPrefixOf_eq_false_of_stable _ _ ha]
      simp
    · have l6 : ("[args[".data).length = 6 := rfl
      have hd6 : (t ++ s).drop 6 = t.drop 6 ++ s := by
        rw [List.drop_append_eq_append_drop, Nat.sub_eq_zero_of_le (by omega), List.drop_zero]
      rw [isPrefixOf_append_of_le _ t s (by omega), hd6,
        tailRef_append _ _ _ (by rw [List.length_drop]; omega)]
      simp

/-- Decidable check over a concrete prefix `P`: no marker parse can start
inside the final chars of `P` and be changed by what follows. -/
def refsScanOK (P : List Char) : Bool :=
  (List.range 12).all fun k => k == 0 || tryRefStable (P.drop (P.length - k))

theorem refs_append_checked (P X : List Char) (h : refsScanOK P = true) :
    refs (P ++ X) = refs P ++ refs X := by
  apply refs_append_pointwise
  intro t ht hne
  by_cases h12 : 12 ≤ t.length
  · exact tryRef_append_of_12 t X h12
  · have hk : t.length ∈ List.range 12 := List.mem_range.mpr (by omega)
    have h2 := List.all_eq_true.mp h _ hk
    have hne0 : (t.length == 0) = false := by
      simp only [beq_eq_false_iff_ne, ne_eq, List.length_eq_zero]
      exact hne
    rw [hne0, Bool.false_or] at h2
    have hdrop : P.drop (P.length - t.length) = t := (List.suffix_iff_eq_drop.mp ht).symm
    rw [hdrop] at h2
    exact tryRef_append_of_stable t X hne h2

/-- Decidable check over a concrete prefix `P`: no occurrence of `pat`
can straddle the boundary after `P`. -/
def occursScanOK (pat P : List Char) : Bool :=
  (List.range pat.length).all fun k => k == 0 || stableBool pat (P.drop (P.length - k))

theorem occurs_append_checked (pat P X : List Char) (h : occursScanOK pat P = true) :
    occurs pat (P ++ X) = occurs pat P + occurs pat X := by
  apply occurs_append_pointwise
  intro t ht hne
  by_cases hlen : pat.length ≤ t.length
  · exact isPrefixOf_append_of_le _ _ _ hlen
  · have hk : t.length ∈ List.range pat.length := List.mem_range.mpr (by omega)
    have h2 := List.all_eq_true.mp h _ hk
    have hne0 : (t.length == 0) = false := by
      simp only [beq_eq_false_iff_ne, ne_eq, List.length_eq_zero]
      exact hne
    rw [hne0, Bool.false_or] at h2
    have hdrop : P.drop (P.length - t.length) = t := (List.suffix_iff_eq_drop.mp ht).symm
    rw [hdrop] at h2
    rw [isPrefixOf_append_eq_false_of_stable _ _ _ h2, isPrefixOf_eq_false_of_stable _ _ h2]

/-- Occurrence counts split around a separator character that does not
appear in the pattern. -/
theorem occurs_append_sep (pat l : List Char) (c : Char) (s : List Char)
    (hc : c ∉ pat) :
    occurs pat (l ++ c :: s) = occurs pat l + occurs pat (c :: s) := by
  apply occurs_append_pointwise
  intro t ht hne
  by_cases hlen : pat.length ≤ t.length
  · exact isPrefixOf_append_of_le _ _ _ hlen
  · rw [isPrefixOf_eq_false_of_lt pat t (by omega)]
    apply isPrefixOf_eq_false_of_get pat (t ++ c :: s) t.length (by omega)
    rw [List.getElem?_append_right (le_refl _), Nat.sub_self]
    rw [List.getElem?_eq_getElem (by omega)]
    simp only [List.getElem?_cons_zero]
    intro hx
    injection hx with hx
    exact hc (hx ▸ List.getElem_mem _)

/-- A bracket-free character list yields no placeholder references. -/
theorem refs_eq_nil_of_no_bracket (l : List Char) (h : '[' ∉ l) : refs l = [] := by
  induction l with
  | nil => rfl
  | cons c rest ih =>
      simp only [refs]
      rw [tryRef_head_ne (c :: rest)
        (by simpa using fun e => h (by rw [e]; exact List.mem_cons_self _ _))]
      simpa using ih (fun hm => h (List.mem_cons_of_mem c hm))

/-! ### Well-formedness of database values and the qc template -/

/-- The supplied database path values contain no `[` character (so they
cannot inject placeholder markers into the command template). -/
def dbsOK : Option Databases → Bool
  | none => true
  | some (Databases.single db) => !(decide ('[' ∈ db.data))
  | some (Databases.listOf dbs) => dbs.all fun db => !(decide ('[' ∈ db.data))

theorem no_bracket_joinWith (g : String) (dbs : List String) (hg : '[' ∉ g.data)
    (h : ∀ db ∈ dbs, '[' ∉ db.data) : '[' ∉ (joinWith g dbs).data := by
  induction dbs with
  | nil => simp [joinWith]
  | cons d ds ih =>
      cases ds with
      | nil => simpa [joinWith] using h d (by simp)
      | cons d2 ds2 =>
          simp only [joinWith, data_append, List.mem_append]
          push_neg
          refine ⟨⟨h d (by simp), hg⟩, ?_⟩
          exact ih (fun db hdb => h db (List.mem_cons_of_mem _ hdb))

theorem no_bracket_frag (dbs : Option Databases) (hd : dbsOK dbs = true) :
    '[' ∉ (optionalDatabaseArgs dbs).data := by
  match dbs with
  | none => simp [optionalDatabaseArgs]
  | some (Databases.single db) =>
      simp only [dbsOK, Bool.not_eq_true', decide_eq_false_iff_not] at hd
      simp only [optionalDatabaseArgs, data_append, List.mem_append]
      push_neg
      exact ⟨by decide, hd⟩
  | some (Databases.listOf dbl) =>
      simp only [dbsOK, List.all_eq_true, Bool.not_eq_true', decide_eq_false_iff_not] at hd
      simp only [optionalDatabaseArgs, data_append, List.mem_append]
      push_neg
      exact ⟨by decide, no_bracket_joinWith _ _ (by decide) hd⟩

/-- The placeholder references of the full kneaddata command template: the
caller-supplied database fragment adds none. -/
theorem qc_template_refs (dbs : Option Databases) (hd : dbsOK dbs = true) :
    refs (qcBaseTemplate ++ optionalDatabaseArgs dbs).data =
      [(RefKind.dep, 0), (RefKind.arg, 0), (RefKind.arg, 1)] := by
  rw [data_append, refs_append_checked _ _ (by decide),
    refs_eq_nil_of_no_bracket _ (no_bracket_frag dbs hd), List.append_nil]
  decide

theorem qc_templateOK (dbs : Option Databases) (hd : dbsOK dbs = true) :
    templateOK (qcBaseTemplate ++ optionalDatabaseArgs dbs) 1 1 2 = true := by
  unfold templateOK
  rw [qc_template_refs dbs hd]
  decide

/-! ### Builder success lemmas and batch shape helpers -/

theorem add_task_ok (w : Workflow) (template : String)
    (depends targets : List Path) (args : List Arg)
    (h : templateOK template depends.length targets.length args.length = true) :
    w.add_task template depends targets args =
      Except.ok { w with singles := w.singles ++ [⟨template, depends, targets, args⟩] } := by
  unfold Workflow.add_task
  rw [if_pos h]

theorem add_task_group_gridable_ok (w : Workflow) (template : String)
    (depends targets : List (List Path)) (args : List Arg) (time mem cpus : Nat)
    (hlen : depends.length = targets.length)
    (hok : ∀ dt ∈ depends.zip targets,
      templateOK template dt.1.length dt.2.length args.length = true) :
    w.add_task_group_gridable template depends targets args time mem cpus =
      Except.ok { w with
        groups := w.groups ++ [⟨template, depends, targets, args, time, mem, cpus⟩] } := by
  unfold Workflow.add_task_group_gridable
  rw [if_neg (by omega), if_pos (List.all_eq_true.mpr hok)]

theorem mem_singletons {l : List Path} {x : List Path}
    (h : x ∈ singletons l) : ∃ a, x = [a] := by
  obtain ⟨a, _, ha⟩ := List.mem_map.mp h
  exact ⟨a, ha.symm⟩

theorem mem_zipPair : ∀ {as bs : List Path} {x : List Path},
    x ∈ zipPair as bs → ∃ a b, x = [a, b] := by
  intro as
  induction as with
  | nil => intro bs x h; simp [zipPair] at h
  | cons a as ih =>
      intro bs x h
      cases bs with
      | nil => simp [zipPair] at h
      | cons b bs =>
          rcases List.mem_cons.mp h with h | h
          · exact ⟨a, b, h⟩
          · exact ih h

theorem mem_zipWith3 : ∀ {as : List Path} {pz : List (Path × Path)} {x : List Path},
    x ∈ List.zipWith (fun a bc => [a, bc.1, bc.2]) as pz → ∃ a b c, x = [a, b, c] := by
  intro as
  induction as with
  | nil => intro pz x h; simp at h
  | cons a as ih =>
      intro pz x h
      cases pz with
      | nil => simp at h
      | cons bc pz =>
          rcases List.mem_cons.mp h with h | h
          · exact ⟨a, bc.1, bc.2, h⟩
          · exact ih h

theorem mem_zip3 {as bs cs : List Path} {x : List Path}
    (h : x ∈ zip3 as bs cs) : ∃ a b c, x = [a, b, c] :=
  mem_zipWith3 h

theorem length_singletons (l : List Path) : (singletons l).length = l.length :=
  List.length_map l _

/-! ### Master evaluation lemmas for the three stage functions -/

/-- The single Task Group registered by `quality_control`. -/
def qcGroup (w : Workflow) (inputs : List Path) (threads : Nat)
    (dbs : Option Databases) : GroupTask :=
  { template := qcBaseTemplate ++ optionalDatabaseArgs dbs,
    depends := singletons inputs,
    targets := singletons
      (w.name_output_files inputs (some "kneaddata") (some "kneaddata") none),
    args := [Arg.dirArg (w.outdir ++ ["kneaddata"]), Arg.natArg threads],
    time := 360, mem := 12288, cpus := threads }

/-- Full evaluation of `quality_control` on a non-empty input batch with
well-formed databases: one Task Group is registered, carrying one
dependency tuple and one target tuple per input file, the 6h/12GB/threads
resource profile, and the command template with the pre-rendered database
fragment; the derived kneaddata output identifiers are returned. -/
theorem quality_control_eq (w : Workflow) (i : Path) (rest : List Path)
    (threads : Nat) (dbs : Option Databases) (hd : dbsOK dbs = true) :
    quality_control w (i :: rest) threads dbs =
      Except.ok
        ({ w with groups := w.groups ++ [qcGroup w (i :: rest) threads dbs] },
         w.name_output_files (i :: rest) (some "kneaddata") (some "kneaddata") none) := by
  have hok : ∀ dt ∈ (singletons (i :: rest)).zip (singletons
      (w.name_output_files (i :: rest) (some "kneaddata") (some "kneaddata") none)),
      templateOK (qcBaseTemplate ++ optionalDatabaseArgs dbs) dt.1.length dt.2.length
        ([Arg.dirArg (w.outdir ++ ["kneaddata"]), Arg.natArg threads]).length = true := by
    intro dt hdt
    obtain ⟨h1, h2⟩ := List.of_mem_zip hdt
    obtain ⟨x, hx⟩ := mem_singletons h1
    obtain ⟨y, hy⟩ := mem_singletons h2
    rw [hx, hy]
    exact qc_templateOK dbs hd
  have hb := add_task_group_gridable_ok w (qcBaseTemplate ++ optionalDatabaseArgs dbs)
    (singletons (i :: rest))
    (singletons (w.name_output_files (i :: rest) (some "kneaddata") (some "kneaddata") none))
    [Arg.dirArg (w.outdir ++ ["kneaddata"]), Arg.natArg threads] (6 * 60) (12 * 1024) threads
    (by rw [length_singletons, length_singletons, Workflow.name_output_files, List.length_map])
    hok
  simp only [quality_control, Workflow.name_output_files, List.map_cons, pyGet, List.get?]
  split
  next e heq => exact absurd (hb.symm.trans heq) (by simp)
  next w1 heq =>
    have h2 := hb.symm.trans heq
    injection h2 with h2
    rw [← h2]
    rfl

theorem length_zipPair (as bs : List Path) :
    (zipPair as bs).length = min as.length bs.length :=
  List.length_zipWith _ _ _

/-- The metaphlan2 Task Group registered by `taxonomic_profile`. -/
def taxGroup (w : Workflow) (inputs : List Path) (threads : Nat) : GroupTask :=
  { template := "metaphlan2.py [depends[0]] --input_type fastq --output_file [targets[0]] --samout [targets[1]] --nproc [args[0]] --no_map --tmp_dir [args[1]]",
    depends := singletons inputs,
    targets := zipPair
      (w.name_output_files inputs (some "taxonomic_profile") (some "metaphlan2") (some "tsv"))
      (w.name_output_files inputs (some "bowtie2") (some "metaphlan2") (some "sam")),
    args := [Arg.natArg threads, Arg.dirArg (w.outdir ++ ["metaphlan2"])],
    time := 180, mem := 12288, cpus := threads }

/-- The cohort-table join Single Task registered by
`taxonomic_profile`. -/
def taxJoinSingle (w : Workflow) (inputs : List Path) : SingleTask :=
  { template := "humann2_join_tables --input [args[0]] --output [targets[0]] --file_name [args[1]]",
    depends := w.name_output_files inputs (some "taxonomic_profile") (some "metaphlan2") (some "tsv"),
    targets := [⟨w.outdir, "taxonomic_profiles.tsv"⟩],
    args := [Arg.dirArg (w.outdir ++ ["metaphlan2"]), Arg.strArg "taxonomic_profile"] }

/-- Full evaluation of `taxonomic_profile` on a non-empty input batch:
one Task Group with paired profile/sam target tuples, then one Single
Task joining the per-sample profile outputs into the cohort table
`taxonomic_profiles.tsv`. -/
theorem taxonomic_profile_eq (w : Workflow) (i : Path) (rest : List Path) (threads : Nat) :
    taxonomic_profile w (i :: rest) threads =
      Except.ok
        ({ w with
           singles := w.singles ++ [taxJoinSingle w (i :: rest)],
           groups := w.groups ++ [taxGroup w (i :: rest) threads] },
         ⟨w.outdir, "taxonomic_profiles.tsv"⟩,
         w.name_output_files (i :: rest) (some "taxonomic_profile") (some "metaphlan2") (some "tsv"),
         w.name_output_files (i :: rest) (some "bowtie2") (some "metaphlan2") (some "sam")) := by
  have hok1 : ∀ dt ∈ (singletons (i :: rest)).zip (zipPair
      (w.name_output_files (i :: rest) (some "taxonomic_profile") (some "metaphlan2") (some "tsv"))
      (w.name_output_files (i :: rest) (some "bowtie2") (some "metaphlan2") (some "sam"))),
      templateOK "metaphlan2.py [depends[0]] --input_type fastq --output_file [targets[0]] --samout [targets[1]] --nproc [args[0]] --no_map --tmp_dir [args[1]]"
        dt.1.length dt.2.length 2 = true := by
    intro dt hdt
    obtain ⟨h1, h2⟩ := List.of_mem_zip hdt
    obtain ⟨x, hx⟩ := mem_singletons h1
    obtain ⟨a, b, hab⟩ := mem_zipPair h2
    rw [hx, hab]
    exact (by decide :
      templateOK "metaphlan2.py [depends[0]] --input_type fastq --output_file [targets[0]] --samout [targets[1]] --nproc [args[0]] --no_map --tmp_dir [args[1]]"
        1 2 2 = true)
  have hb1 := add_task_group_gridable_ok w
    "metaphlan2.py [depends[0]] --input_type fastq --output_file [targets[0]] --samout [targets[1]] --nproc [args[0]] --no_map --tmp_dir [args[1]]"
    (singletons (i :: rest))
    (zipPair
      (w.name_output_files (i :: rest) (some "taxonomic_profile") (some "metaphlan2") (some "tsv"))
      (w.name_output_files (i :: rest) (some "bowtie2") (some "metaphlan2") (some "sam")))
    [Arg.natArg threads, Arg.dirArg (w.outdir ++ ["metaphlan2"])] (3 * 60) (12 * 1024) threads
    (by rw [length_singletons, length_zipPair]
        simp [Workflow.name_output_files])
    hok1
  simp only [taxonomic_profile, Workflow.name_output_files, List.map_cons, pyGet, List.get?]
  split
  next e heq => exact absurd (hb1.symm.trans heq) (by simp)
  next w1 heq =>
    have h2 := hb1.symm.trans heq
    injection h2 with h2
    subst h2
    have hb2 := add_task_ok
      ({ w with groups := w.groups ++
          [{ template := "metaphlan2.py [depends[0]] --input_type fastq --output_file [targets[0]] --samout [targets[1]] --nproc [args[0]] --no_map --tmp_dir [args[1]]",
             depends := singletons (i :: rest),
             targets := zipPair
               (w.name_output_files (i :: rest) (some "taxonomic_profile") (some "metaphlan2") (some "tsv"))
               (w.name_output_files (i :: rest) (some "bowtie2") (some "metaphlan2") (some "sam")),
             args := [Arg.natArg threads, Arg.dirArg (w.outdir ++ ["metaphlan2"])],
             time := 3 * 60, mem := 12 * 1024, cpus := threads }] })
      "humann2_join_tables --input [args[0]] --output [targets[0]] --file_name [args[1]]"
      (w.name_output_files (i :: rest) (some "taxonomic_profile") (some "metaphlan2") (some "tsv"))
      [⟨w.outdir, "taxonomic_profiles.tsv"⟩]
      [Arg.dirArg (w.outdir ++ ["metaphlan2"]), Arg.strArg "taxonomic_profile"]
      rfl
    split
    next e heq2 => exact absurd (hb2.symm.trans heq2) (by simp)
    next w2 heq2 =>
      have h3 := hb2.symm.trans heq2
      injection h3 with h3
      rw [← h3]
      rfl

/-- The per-sample gene family files derived by `functional_profile`. -/
def fpGene (w : Workflow) (inputs : List Path) : List Path :=
  w.name_output_files inputs (some "genefamilies") (some "humann2") (some "tsv")

/-- The per-sample pathway abundance files derived by
`functional_profile`. -/
def fpPathAb (w : Workflow) (inputs : List Path) : List Path :=
  w.name_output_files inputs (some "pathabundance") (some "humann2") (some "tsv")

/-- The per-sample pathway coverage files derived by
`functional_profile`. -/
def fpPathCov (w : Workflow) (inputs : List Path) : List Path :=
  w.name_output_files inputs (some "pathcoverage") (some "humann2") (some "tsv")

/-- The per-sample ec files derived by `functional_profile`. -/
def fpEc (w : Workflow) (inputs : List Path) : List Path :=
  w.name_output_files (fpGene w inputs) (some "ecs") (some "humann2") none

/-- The normalized per-sample gene family files. -/
def fpNormGene (w : Workflow) (inputs : List Path) : List Path :=
  w.name_output_files (fpGene w inputs) (some "relab") (some "genes") none

/-- The normalized per-sample ec files. -/
def fpNormEc (w : Workflow) (inputs : List Path) : List Path :=
  w.name_output_files (fpEc w inputs) (some "relab") (some "ecs") none

/-- The normalized per-sample pathway abundance files. -/
def fpNormPathAb (w : Workflow) (inputs : List Path) : List Path :=
  w.name_output_files (fpPathAb w inputs) (some "relab") (some "pathways") none

/-- The cohort-level merge Single Task for normalized gene families. -/
def fpMergeGene (w : Workflow) (inputs : List Path) : SingleTask :=
  { template := "humann2_join_tables --input [args[0]] --output [targets[0]]",
    depends := fpNormGene w inputs,
    targets := [⟨w.outdir, "genefamilies_relab.tsv"⟩],
    args := [Arg.dirArg (w.outdir ++ ["genes"])] }

/-- The cohort-level merge Single Task for normalized ecs. -/
def fpMergeEc (w : Workflow) (inputs : List Path) : SingleTask :=
  { template := "humann2_join_tables --input [args[0]] --output [targets[0]]",
    depends := fpNormEc w inputs,
    targets := [⟨w.outdir, "ecs_relab.tsv"⟩],
    args := [Arg.dirArg (w.outdir ++ ["ecs"])] }

/-- The cohort-level merge Single Task for normalized pathway
abundances. -/
def fpMergePath (w : Workflow) (inputs : List Path) : SingleTask :=
  { template := "humann2_join_tables --input [args[0]] --output [targets[0]]",
    depends := fpNormPathAb w inputs,
    targets := [⟨w.outdir, "pathabundance_relab.tsv"⟩],
    args := [Arg.dirArg (w.outdir ++ ["pathways"])] }

/-- The regrouping Task Group (step 2) of `functional_profile`. -/
def fpRegroup (w : Workflow) (inputs : List Path) : GroupTask :=
  { template := "humann2_regroup_table --input [depends[0]] --output [targets[0]] --groups uniref90_level4ec",
    depends := singletons (fpGene w inputs),
    targets := singletons (fpEc w inputs),
    args := [], time := 600, mem := 5120, cpus := 1 }

/-- The normalization Task Group (step 3) of `functional_profile`, one
group over the concatenation of the three file batches. -/
def fpRenorm (w : Workflow) (inputs : List Path) : GroupTask :=
  { template := "humann2_renorm_table --input [depends[0]] --output [targets[0]] --units relab",
    depends := singletons (fpGene w inputs ++ fpEc w inputs ++ fpPathAb w inputs),
    targets := singletons (fpNormGene w inputs ++ fpNormEc w inputs ++ fpNormPathAb w inputs),
    args := [], time := 300, mem := 5120, cpus := 1 }

/-- The primary humann2 Task Group of `functional_profile` when no
taxonomic profiles are in effect. -/
def fpMainGroupPlain (w : Workflow) (inputs : List Path) (threads : Nat) : GroupTask :=
  { template := "humann2 --input [depends[0]] --output [args[0]] --threads [args[1]]",
    depends := singletons inputs,
    targets := zip3 (fpGene w inputs) (fpPathAb w inputs) (fpPathCov w inputs),
    args := [Arg.dirArg (w.outdir ++ ["humann2"]), Arg.natArg threads],
    time := 1440, mem := 36864, cpus := threads }

/-- The primary humann2 Task Group of `functional_profile` when
taxonomic profiles are supplied: each task's dependency tuple pairs the
input file with its profile, and the template gains the
`--taxonomic-profile [depends[1]]` option. -/
def fpMainGroupPaired (w : Workflow) (inputs profiles : List Path) (threads : Nat) : GroupTask :=
  { template := "humann2 --input [depends[0]] --output [args[0]] --threads [args[1]] --taxonomic-profile [depends[1]] ",
    depends := zipPair inputs profiles,
    targets := zip3 (fpGene w inputs) (fpPathAb w inputs) (fpPathCov w inputs),
    args := [Arg.dirArg (w.outdir ++ ["humann2"]), Arg.natArg threads],
    time := 1440, mem := 36864, cpus := threads }

/-- Generic success form of a Task Group registration. -/
theorem add_group_ok (w : Workflow) (g : GroupTask)
    (hlen : g.depends.length = g.targets.length)
    (hok : ∀ dt ∈ g.depends.zip g.targets,
      templateOK g.template dt.1.length dt.2.length g.args.length = true) :
    w.add_task_group_gridable g.template g.depends g.targets g.args g.time g.mem g.cpus =
      Except.ok { w with groups := w.groups ++ [g] } := by
  have h := add_task_group_gridable_ok w g.template g.depends g.targets g.args
    g.time g.mem g.cpus hlen hok
  exact h

/-- Generic success form of a Single Task registration. -/
theorem add_single_ok (w : Workflow) (t : SingleTask)
    (h : templateOK t.template t.depends.length t.targets.length t.args.length = true) :
    w.add_task t.template t.depends t.targets t.args =
      Except.ok { w with singles := w.singles ++ [t] } :=
  add_task_ok w t.template t.depends t.targets t.args h

/-- Full evaluation of `functional_profile` on a non-empty input batch
without taxonomic profiles: three Task Groups (primary run, regrouping,
normalization over the concatenated batches) and three cohort merge
Single Tasks; the three merged tables are returned in order. -/
theorem functional_profile_none_eq (w : Workflow) (i : Path) (rest : List Path)
    (threads : Nat) :
    functional_profile w (i :: rest) threads none =
      Except.ok
        ({ w with
           singles := w.singles ++
             [fpMergeGene w (i :: rest), fpMergeEc w (i :: rest), fpMergePath w (i :: rest)],
           groups := w.groups ++
             [fpMainGroupPlain w (i :: rest) threads, fpRegroup w (i :: rest),
              fpRenorm w (i :: rest)] },
         ⟨w.outdir, "genefamilies_relab.tsv"⟩, ⟨w.outdir, "ecs_relab.tsv"⟩,
         ⟨w.outdir, "pathabundance_relab.tsv"⟩) := by
  have ht1 : templateOK "humann2 --input [depends[0]] --output [args[0]] --threads [args[1]]"
      1 3 2 = true := by decide
  have ht2 : templateOK "humann2_regroup_table --input [depends[0]] --output [targets[0]] --groups uniref90_level4ec"
      1 1 0 = true := by decide
  have ht3 : templateOK "humann2_renorm_table --input [depends[0]] --output [targets[0]] --units relab"
      1 1 0 = true := by decide
  have hok1 : ∀ dt ∈ (fpMainGroupPlain w (i :: rest) threads).depends.zip
      (fpMainGroupPlain w (i :: rest) threads).targets,
      templateOK (fpMainGroupPlain w (i :: rest) threads).template
        dt.1.length dt.2.length (fpMainGroupPlain w (i :: rest) threads).args.length = true := by
    intro dt hdt
    obtain ⟨h1, h2⟩ := List.of_mem_zip hdt
    obtain ⟨x, hx⟩ := mem_singletons h1
    obtain ⟨a, b, c, habc⟩ := mem_zip3 h2
    rw [hx, habc]
    exact ht1
  have hlen1 : (fpMainGroupPlain w (i :: rest) threads).depends.length =
      (fpMainGroupPlain w (i :: rest) threads).targets.length := by
    simp [fpMainGroupPlain, fpGene, fpPathAb, fpPathCov, singletons, zip3,
      Workflow.name_output_files, List.length_zipWith, List.length_zip]
  have hok2 : ∀ dt ∈ (fpRegroup w (i :: rest)).depends.zip (fpRegroup w (i :: rest)).targets,
      templateOK (fpRegroup w (i :: rest)).template
        dt.1.length dt.2.length (fpRegroup w (i :: rest)).args.length = true := by
    intro dt hdt
    obtain ⟨h1, h2⟩ := List.of_mem_zip hdt
    obtain ⟨x, hx⟩ := mem_singletons h1
    obtain ⟨y, hy⟩ := mem_singletons h2
    rw [hx, hy]
    exact ht2
  have hlen2 : (fpRegroup w (i :: rest)).depends.length =
      (fpRegroup w (i :: rest)).targets.length := by
    simp [fpRegroup, fpGene, fpEc, singletons, Workflow.name_output_files]
  have hok3 : ∀ dt ∈ (fpRenorm w (i :: rest)).depends.zip (fpRenorm w (i :: rest)).targets,
      templateOK (fpRenorm w (i :: rest)).template
        dt.1.length dt.2.length (fpRenorm w (i :: rest)).args.length = true := by
    intro dt hdt
    obtain ⟨h1, h2⟩ := List.of_mem_zip hdt
    obtain ⟨x, hx⟩ := mem_singletons h1
    obtain ⟨y, hy⟩ := mem_singletons h2
    rw [hx, hy]
    exact ht3
  have hlen3 : (fpRenorm w (i :: rest)).depends.length =
      (fpRenorm w (i :: rest)).targets.length := by
    simp [fpRenorm, fpGene, fpEc, fpPathAb, fpNormGene, fpNormEc, fpNormPathAb,
      singletons, Workflow.name_output_files]
  have hb1 := add_group_ok w (fpMainGroupPlain w (i :: rest) threads) hlen1 hok1
  simp only [functional_profile, mergeTask, Workflow.name_output_files, List.map_cons,
    pyGet, List.get?]
  split
  next e heq => exact absurd (hb1.symm.trans heq) (by simp)
  next w1 heq =>
  have e1 := hb1.symm.trans heq
  injection e1 with e1
  subst e1
  have hb2 := add_group_ok
    { w with groups := w.groups ++ [fpMainGroupPlain w (i :: rest) threads] }
    (fpRegroup w (i :: rest)) hlen2 hok2
  split
  next e heq2 => exact absurd (hb2.symm.trans heq2) (by simp)
  next w2 heq2 =>
  have e2 := hb2.symm.trans heq2
  injection e2 with e2
  subst e2
  have hb3 := add_group_ok
    { w with groups := w.groups ++ [fpMainGroupPlain w (i :: rest) threads] ++ [fpRegroup w (i :: rest)] }
    (fpRenorm w (i :: rest)) hlen3 hok3
  split
  next e heq3 => exact absurd (hb3.symm.trans heq3) (by simp)
  next w3 heq3 =>
  have e3 := hb3.symm.trans heq3
  injection e3 with e3
  subst e3
  have hb4 := add_single_ok
    { w with groups := w.groups ++ [fpMainGroupPlain w (i :: rest) threads] ++
        [fpRegroup w (i :: rest)] ++ [fpRenorm w (i :: rest)] }
    (fpMergeGene w (i :: rest)) rfl
  split
  next e heq4 => exact absurd (hb4.symm.trans heq4) (by simp)
  next w4 heq4 =>
  have e4 := hb4.symm.trans heq4
  injection e4 with e4
  subst e4
  have hb5 := add_single_ok
    { w with singles := w.singles ++ [fpMergeGene w (i :: rest)],
             groups := w.groups ++ [fpMainGroupPlain w (i :: rest) threads] ++
               [fpRegroup w (i :: rest)] ++ [fpRenorm w (i :: rest)] }
    (fpMergeEc w (i :: rest)) rfl
  split
  next e heq5 => exact absurd (hb5.symm.trans heq5) (by simp)
  next w5 heq5 =>
  have e5 := hb5.symm.trans heq5
  injection e5 with e5
  subst e5
  have hb6 := add_single_ok
    { w with singles := w.singles ++ [fpMergeGene w (i :: rest)] ++ [fpMergeEc w (i :: rest)],
             groups := w.groups ++ [fpMainGroupPlain w (i :: rest) threads] ++
               [fpRegroup w (i :: rest)] ++ [fpRenorm w (i :: rest)] }
    (fpMergePath w (i :: rest)) rfl
  split
  next e heq6 => exact absurd (hb6.symm.trans heq6) (by simp)
  next w6 heq6 =>
  have e6 := hb6.symm.trans heq6
  injection e6 with e6
  rw [← e6]
  simp only [List.append_assoc, List.cons_append, List.nil_append]
  rfl

/-- Full evaluation of `functional_profile` on a non-empty input batch
with a non-empty batch of taxonomic profiles of matching length: as in
the plain case, but the primary Task Group pairs each input with its
profile in a two-element dependency tuple and its template carries the
`--taxonomic-profile [depends[1]]` option. -/
theorem functional_profile_some_eq (w : Workflow) (i : Path) (rest : List Path)
    (q : Path) (qs : List Path) (threads : Nat) (hlen : qs.length = rest.length) :
    functional_profile w (i :: rest) threads (some (q :: qs)) =
      Except.ok
        ({ w with
           singles := w.singles ++
             [fpMergeGene w (i :: rest), fpMergeEc w (i :: rest), fpMergePath w (i :: rest)],
           groups := w.groups ++
             [fpMainGroupPaired w (i :: rest) (q :: qs) threads, fpRegroup w (i :: rest),
              fpRenorm w (i :: rest)] },
         ⟨w.outdir, "genefamilies_relab.tsv"⟩, ⟨w.outdir, "ecs_relab.tsv"⟩,
         ⟨w.outdir, "pathabundance_relab.tsv"⟩) := by
  have ht1 : templateOK "humann2 --input [depends[0]] --output [args[0]] --threads [args[1]] --taxonomic-profile [depends[1]] "
      2 3 2 = true := by decide
  have ht2 : templateOK "humann2_regroup_table --input [depends[0]] --output [targets[0]] --groups uniref90_level4ec"
      1 1 0 = true := by decide
  have ht3 : templateOK "humann2_renorm_table --input [depends[0]] --output [targets[0]] --units relab"
      1 1 0 = true := by decide
  have hok1 : ∀ dt ∈ (fpMainGroupPaired w (i :: rest) (q :: qs) threads).depends.zip
      (fpMainGroupPaired w (i :: rest) (q :: qs) threads).targets,
      templateOK (fpMainGroupPaired w (i :: rest) (q :: qs) threads).template
        dt.1.length dt.2.length (fpMainGroupPaired w (i :: rest) (q :: qs) threads).args.length = true := by
    intro dt hdt
    obtain ⟨h1, h2⟩ := List.of_mem_zip hdt
    obtain ⟨a, b, hab⟩ := mem_zipPair h1
    obtain ⟨x, y, z, hxyz⟩ := mem_zip3 h2
    rw [hab, hxyz]
    exact ht1
  have hlen1 : (fpMainGroupPaired w (i :: rest) (q :: qs) threads).depends.length =
      (fpMainGroupPaired w (i :: rest) (q :: qs) threads).targets.length := by
    simp [fpMainGroupPaired, fpGene, fpPathAb, fpPathCov, zipPair, zip3,
      Workflow.name_output_files, List.length_zipWith, List.length_zip, hlen]
  have hok2 : ∀ dt ∈ (fpRegroup w (i :: rest)).depends.zip (fpRegroup w (i :: rest)).targets,
      templateOK (fpRegroup w (i :: rest)).template
        dt.1.length dt.2.length (fpRegroup w (i :: rest)).args.length = true := by
    intro dt hdt
    obtain ⟨h1, h2⟩ := List.of_mem_zip hdt
    obtain ⟨x, hx⟩ := mem_singletons h1
    obtain ⟨y, hy⟩ := mem_singletons h2
    rw [hx, hy]
    exact ht2
  have hlen2 : (fpRegroup w (i :: rest)).depends.length =
      (fpRegroup w (i :: rest)).targets.length := by
    simp [fpRegroup, fpGene, fpEc, singletons, Workflow.name_output_files]
  have hok3 : ∀ dt ∈ (fpRenorm w (i :: rest)).depends.zip (fpRenorm w (i :: rest)).targets,
      templateOK (fpRenorm w (i :: rest)).template
        dt.1.length dt.2.length (fpRenorm w (i :: rest)).args.length = true := by
    intro dt hdt
    obtain ⟨h1, h2⟩ := List.of_mem_zip hdt
    obtain ⟨x, hx⟩ := mem_singletons h1
    obtain ⟨y, hy⟩ := mem_singletons h2
    rw [hx, hy]
    exact ht3
  have hlen3 : (fpRenorm w (i :: rest)).depends.length =
      (fpRenorm w (i :: rest)).targets.length := by
    simp [fpRenorm, fpGene, fpEc, fpPathAb, fpNormGene, fpNormEc, fpNormPathAb,
      singletons, Workflow.name_output_files]
  have hb1 := add_group_ok w (fpMainGroupPaired w (i :: rest) (q :: qs) threads) hlen1 hok1
  simp only [functional_profile, mergeTask, Workflow.name_output_files, List.map_cons,
    pyGet, List.get?]
  split
  next e heq => exact absurd (hb1.symm.trans heq) (by simp)
  next w1 heq =>
  have e1 := hb1.symm.trans heq
  injection e1 with e1
  subst e1
  have hb2 := add_group_ok
    { w with groups := w.groups ++ [fpMainGroupPaired w (i :: rest) (q :: qs) threads] }
    (fpRegroup w (i :: rest)) hlen2 hok2
  split
  next e heq2 => exact absurd (hb2.symm.trans heq2) (by simp)
  next w2 heq2 =>
  have e2 := hb2.symm.trans heq2
  injection e2 with e2
  subst e2
  have hb3 := add_group_ok
    { w with groups := w.groups ++ [fpMainGroupPaired w (i :: rest) (q :: qs) threads] ++ [fpRegroup w (i :: rest)] }
    (fpRenorm w (i :: rest)) hlen3 hok3
  split
  next e heq3 => exact absurd (hb3.symm.trans heq3) (by simp)
  next w3 heq3 =>
  have e3 := hb3.symm.trans heq3
  injection e3 with e3
  subst e3
  have hb4 := add_single_ok
    { w with groups := w.groups ++ [fpMainGroupPaired w (i :: rest) (q :: qs) threads] ++
        [fpRegroup w (i :: rest)] ++ [fpRenorm w (i :: rest)] }
    (fpMergeGene w (i :: rest)) rfl
  split
  next e heq4 => exact absurd (hb4.symm.trans heq4) (by simp)
  next w4 heq4 =>
  have e4 := hb4.symm.trans heq4
  injection e4 with e4
  subst e4
  have hb5 := add_single_ok
    { w with singles := w.singles ++ [fpMergeGene w (i :: rest)],
             groups := w.groups ++ [fpMainGroupPaired w (i :: rest) (q :: qs) threads] ++
               [fpRegroup w (i :: rest)] ++ [fpRenorm w (i :: rest)] }
    (fpMergeEc w (i :: rest)) rfl
  split
  next e heq5 => exact absurd (hb5.symm.trans heq5) (by simp)
  next w5 heq5 =>
  have e5 := hb5.symm.trans heq5
  injection e5 with e5
  subst e5
  have hb6 := add_single_ok
    { w with singles := w.singles ++ [fpMergeGene w (i :: rest)] ++ [fpMergeEc w (i :: rest)],
             groups := w.groups ++ [fpMainGroupPaired w (i :: rest) (q :: qs) threads] ++
               [fpRegroup w (i :: rest)] ++ [fpRenorm w (i :: rest)] }
    (fpMergePath w (i :: rest)) rfl
  split
  next e heq6 => exact absurd (hb6.symm.trans heq6) (by simp)
  next w6 heq6 =>
  have e6 := hb6.symm.trans heq6
  injection e6 with e6
  rw [← e6]
  simp only [List.append_assoc, List.cons_append, List.nil_append]
  rfl

/-- Concrete sample workflow used by witnesses and counterexamples. -/
def sampleW : Workflow := { outdir := ["out"], singles := [], groups := [] }

/-- Concrete sample input file. -/
def sIn1 : Path := { dir := [], base := "s1.fastq" }

/-- Concrete sample input file. -/
def sIn2 : Path := { dir := [], base := "s2.fastq" }

/-- Concrete sample taxonomic profile file. -/
def sTp1 : Path := { dir := ["tp"], base := "t1.tsv" }

/-- Concrete sample taxonomic profile file. -/
def sTp2 : Path := { dir := ["tp"], base := "t2.tsv" }

/-- Every task of a Task Group has all template placeholders resolving,
and the dependency and target batches pair up. -/
def groupOK (g : GroupTask) : Bool :=
  (g.depends.length == g.targets.length) &&
    (g.depends.zip g.targets).all
      (fun dt => templateOK g.template dt.1.length dt.2.length g.args.length)

/-- All template placeholders of a Single Task resolve. -/
def singleOK (t : SingleTask) : Bool :=
  templateOK t.template t.depends.length t.targets.length t.args.length

/-- Every task registered on top of `old` to give `new` has all its
placeholder references resolving. -/
def newTasksOK (old new : Workflow) : Bool :=
  ((new.groups.drop old.groups.length).all groupOK) &&
    ((new.singles.drop old.singles.length).all singleOK)

theorem groupOK_of (g : GroupTask)
    (hlen : g.depends.length = g.targets.length)
    (hok : ∀ dt ∈ g.depends.zip g.targets,
      templateOK g.template dt.1.length dt.2.length g.args.length = true) :
    groupOK g = true := by
  simp only [groupOK, Bool.and_eq_true, beq_iff_eq, List.all_eq_true]
  exact ⟨hlen, hok⟩

theorem qcGroup_OK (w : Workflow) (inputs : List Path) (threads : Nat)
    (dbs : Option Databases) (hd : dbsOK dbs = true) :
    groupOK (qcGroup w inputs threads dbs) = true := by
  refine groupOK_of _ ?_ ?_
  · simp [qcGroup, singletons, Workflow.name_output_files]
  · intro dt hdt
    obtain ⟨h1, h2⟩ := List.of_mem_zip hdt
    obtain ⟨x, hx⟩ := mem_singletons h1
    obtain ⟨y, hy⟩ := mem_singletons h2
    rw [hx, hy]
    exact qc_templateOK dbs hd

theorem taxGroup_OK (w : Workflow) (inputs : List Path) (threads : Nat) :
    groupOK (taxGroup w inputs threads) = true := by
  refine groupOK_of _ ?_ ?_
  · simp [taxGroup, singletons, zipPair, Workflow.name_output_files, List.length_zipWith]
  · intro dt hdt
    obtain ⟨h1, h2⟩ := List.of_mem_zip hdt
    obtain ⟨x, hx⟩ := mem_singletons h1
    obtain ⟨a, b, hab⟩ := mem_zipPair h2
    rw [hx, hab]
    exact (by decide :
      templateOK "metaphlan2.py [depends[0]] --input_type fastq --output_file [targets[0]] --samout [targets[1]] --nproc [args[0]] --no_map --tmp_dir [args[1]]"
        1 2 2 = true)

theorem fpMainGroupPlain_OK (w : Workflow) (inputs : List Path) (threads : Nat) :
    groupOK (fpMainGroupPlain w inputs threads) = true := by
  refine groupOK_of _ ?_ ?_
  · simp [fpMainGroupPlain, fpGene, fpPathAb, fpPathCov, singletons, zip3,
      Workflow.name_output_files, List.length_zipWith, List.length_zip]
  · intro dt hdt
    obtain ⟨h1, h2⟩ := List.of_mem_zip hdt
    obtain ⟨x, hx⟩ := mem_singletons h1
    obtain ⟨a, b, c, habc⟩ := mem_zip3 h2
    rw [hx, habc]
    exact (by decide :
      templateOK "humann2 --input [depends[0]] --output [args[0]] --threads [args[1]]"
        1 3 2 = true)

theorem fpMainGroupPaired_OK (w : Workflow) (inputs profiles : List Path)
    (threads : Nat) (hp : profiles.length = inputs.length) :
    groupOK (fpMainGroupPaired w inputs profiles threads) = true := by
  refine groupOK_of _ ?_ ?_
  · simp [fpMainGroupPaired, fpGene, fpPathAb, fpPathCov, zipPair, zip3,
      Workflow.name_output_files, List.length_zipWith, List.length_zip, hp]
  · intro dt hdt
    obtain ⟨h1, h2⟩ := List.of_mem_zip hdt
    obtain ⟨a, b, hab⟩ := mem_zipPair h1
    obtain ⟨x, y, z, hxyz⟩ := mem_zip3 h2
    rw [hab, hxyz]
    exact (by decide :
      templateOK "humann2 --input [depends[0]] --output [args[0]] --threads [args[1]] --taxonomic-profile [depends[1]] "
        2 3 2 = true)

theorem fpRegroup_OK (w : Workflow) (inputs : List Path) :
    groupOK (fpRegroup w inputs) = true := by
  refine groupOK_of _ ?_ ?_
  · simp [fpRegroup, fpGene, fpEc, singletons, Workflow.name_output_files]
  · intro dt hdt
    obtain ⟨h1, h2⟩ := List.of_mem_zip hdt
    obtain ⟨x, hx⟩ := mem_singletons h1
    obtain ⟨y, hy⟩ := mem_singletons h2
    rw [hx, hy]
    exact (by decide :
      templateOK "humann2_regroup_table --input [depends[0]] --output [targets[0]] --groups uniref90_level4ec"
        1 1 0 = true)

theorem fpRenorm_OK (w : Workflow) (inputs : List Path) :
    groupOK (fpRenorm w inputs) = true := by
  refine groupOK_of _ ?_ ?_
  · simp [fpRenorm, fpGene, fpEc, fpPathAb, fpNormGene, fpNormEc, fpNormPathAb,
      singletons, Workflow.name_output_files]
  · intro dt hdt
    obtain ⟨h1, h2⟩ := List.of_mem_zip hdt
    obtain ⟨x, hx⟩ := mem_singletons h1
    obtain ⟨y, hy⟩ := mem_singletons h2
    rw [hx, hy]
    exact (by decide :
      templateOK "humann2_renorm_table --input [depends[0]] --output [targets[0]] --units relab"
        1 1 0 = true)

/-- A well-behaved database path value: it contains no `[` (so it cannot
inject placeholder markers) and does not itself contain the option token
`--reference-db`. -/
def goodDb (db : String) : Bool :=
  !(decide ('[' ∈ db.data)) && (occurs "--reference-db".data db.data == 0)

theorem goodDb_no_bracket {db : String} (h : goodDb db = true) : '[' ∉ db.data := by
  simp only [goodDb, Bool.and_eq_true, Bool.not_eq_true', decide_eq_false_iff_not] at h
  exact h.1

theorem goodDb_count {db : String} (h : goodDb db = true) :
    occurs "--reference-db".data db.data = 0 := by
  simp only [goodDb, Bool.and_eq_true, beq_iff_eq] at h
  exact h.2

/-- Splitting the option-token count of the full kneaddata command
template across the concrete base and the database fragment. -/
theorem qc_count_split (frag : String) :
    occursStr "--reference-db" (qcBaseTemplate ++ frag) =
      occurs "--reference-db".data frag.data := by
  unfold occursStr
  rw [data_append, occurs_append_checked _ _ _ (by decide)]
  have h0 : occurs "--reference-db".data qcBaseTemplate.data = 0 := by decide
  rw [h0, Nat.zero_add]

/-- One pre-rendered clause contributes exactly one option token, no
matter what follows it. -/
theorem occurs_glue_cons (X : List Char) :
    occurs "--reference-db".data (" --reference-db ".data ++ X) =
      1 + occurs "--reference-db".data X := by
  rw [occurs_append_checked _ _ _ (by decide)]
  have h1 : occurs "--reference-db".data " --reference-db ".data = 1 := by decide
  rw [h1]

/-- The option-token count of the fragment built from a non-empty
database list is exactly the number of databases. -/
theorem occurs_frag_list : ∀ (dbs : List String), dbs ≠ [] →
    (∀ db ∈ dbs, goodDb db = true) →
    occurs "--reference-db".data
      (" --reference-db " ++ joinWith " --reference-db " dbs).data = dbs.length := by
  intro dbs
  induction dbs with
  | nil => intro h; exact absurd rfl h
  | cons d ds ih =>
      intro _ hgood
      cases ds with
      | nil =>
          rw [data_append, occurs_glue_cons]
          simp only [joinWith]
          rw [goodDb_count (hgood d (List.mem_cons_self _ _))]
          rfl
      | cons d2 ds2 =>
          have hjoin : (" --reference-db " ++ joinWith " --reference-db " (d :: d2 :: ds2)).data =
              " --reference-db ".data ++ (d.data ++
                (" --reference-db " ++ joinWith " --reference-db " (d2 :: ds2)).data) := by
            simp only [joinWith, data_append, List.append_assoc]
          rw [hjoin, occurs_glue_cons]
          have hsep : (" --reference-db " ++ joinWith " --reference-db " (d2 :: ds2)).data =
              ' ' :: ("--reference-db ".data ++ (joinWith " --reference-db " (d2 :: ds2)).data) := by
            rw [data_append]
            rfl
          rw [hsep, occurs_append_sep _ _ _ _ (by decide), ← hsep,
            goodDb_count (hgood d (List.mem_cons_self _ _)),
            ih (by simp) (fun db hdb => hgood db (List.mem_cons_of_mem _ hdb))]
          simp only [List.length_cons]
          omega

/-- Does a stage result report the spec's InvalidInput /
MissingUpstreamOutput error class? -/
def failsWithInvalidInput {α : Type} : Except Err α → Bool
  | Except.error (Err.invalidInput _) => true
  | _ => false

/-! ### Claim theorems -/

/-- C1: for every workflow, `quality_control` on the two inputs
`s1.fastq`, `s2.fastq` with `threads = 4` and no databases declares
exactly two target identifiers, both derived with tag `kneaddata` under
the `kneaddata` subfolder of the workflow output root, registers exactly
one Task Group of size 2 with resource profile time 360 minutes, mem
12288 MB, cpus 4, and returns exactly those two target identifiers. -/
theorem c1_quality_control_two_inputs (w : Workflow) (d1 d2 : List String) :
    quality_control w [⟨d1, "s1.fastq"⟩, ⟨d2, "s2.fastq"⟩] 4 none =
      Except.ok
        ({ w with singles := w.singles, groups := w.groups ++
            [{ template := qcBaseTemplate ++ "",
               depends := [[⟨d1, "s1.fastq"⟩], [⟨d2, "s2.fastq"⟩]],
               targets := [[⟨w.outdir ++ ["kneaddata"], "s1.fastq.kneaddata"⟩],
                           [⟨w.outdir ++ ["kneaddata"], "s2.fastq.kneaddata"⟩]],
               args := [Arg.dirArg (w.outdir ++ ["kneaddata"]), Arg.natArg 4],
               time := 360, mem := 12288, cpus := 4 }] },
         [⟨w.outdir ++ ["kneaddata"], "s1.fastq.kneaddata"⟩,
          ⟨w.outdir ++ ["kneaddata"], "s2.fastq.kneaddata"⟩]) ∧
    (w.outdir ++ ["kneaddata"]).getLast? = some "kneaddata" :=
  ⟨rfl, List.getLast?_concat _⟩

/-- C2: for every workflow and every pair of input files, the metaphlan2
Task Group of `taxonomic_profile` declares 2 profile and 2 alignment
(sam) targets as paired target tuples, and exactly one Single Task is
registered whose single target is named from `taxonomic_profiles.tsv` and
whose dependency list is exactly the 2 per-sample profile targets (the
sam targets appear nowhere in it). -/
theorem c2_taxonomic_profile_two_inputs (w : Workflow) (a b : Path) (threads : Nat) :
    taxonomic_profile w [a, b] threads =
      Except.ok
        ({ w with
           singles := w.singles ++
             [{ template := "humann2_join_tables --input [args[0]] --output [targets[0]] --file_name [args[1]]",
                depends := [⟨w.outdir ++ ["metaphlan2"], a.base ++ ".taxonomic_profile.tsv"⟩,
                            ⟨w.outdir ++ ["metaphlan2"], b.base ++ ".taxonomic_profile.tsv"⟩],
                targets := [⟨w.outdir, "taxonomic_profiles.tsv"⟩],
                args := [Arg.dirArg (w.outdir ++ ["metaphlan2"]), Arg.strArg "taxonomic_profile"] }],
           groups := w.groups ++
             [{ template := "metaphlan2.py [depends[0]] --input_type fastq --output_file [targets[0]] --samout [targets[1]] --nproc [args[0]] --no_map --tmp_dir [args[1]]",
                depends := [[a], [b]],
                targets := [[⟨w.outdir ++ ["metaphlan2"], a.base ++ ".taxonomic_profile.tsv"⟩,
                             ⟨w.outdir ++ ["metaphlan2"], a.base ++ ".bowtie2.sam"⟩],
                            [⟨w.outdir ++ ["metaphlan2"], b.base ++ ".taxonomic_profile.tsv"⟩,
                             ⟨w.outdir ++ ["metaphlan2"], b.base ++ ".bowtie2.sam"⟩]],
                args := [Arg.natArg threads, Arg.dirArg (w.outdir ++ ["metaphlan2"])],
                time := 180, mem := 12288, cpus := threads }] },
         ⟨w.outdir, "taxonomic_profiles.tsv"⟩,
         [⟨w.outdir ++ ["metaphlan2"], a.base ++ ".taxonomic_profile.tsv"⟩,
          ⟨w.outdir ++ ["metaphlan2"], b.base ++ ".taxonomic_profile.tsv"⟩],
         [⟨w.outdir ++ ["metaphlan2"], a.base ++ ".bowtie2.sam"⟩,
          ⟨w.outdir ++ ["metaphlan2"], b.base ++ ".bowtie2.sam"⟩]) := rfl

/-- C3: for every workflow and every pair of input files,
`functional_profile` with no taxonomic profiles registers exactly 3
cohort merge Single Tasks, with targets named from
`genefamilies_relab.tsv`, `ecs_relab.tsv` and `pathabundance_relab.tsv`
respectively, each depending on exactly the 2 normalized per-sample files
of its own kind, and the three merged identifiers are returned in that
order. -/
theorem c3_functional_profile_two_inputs (w : Workflow) (a b : Path) (threads : Nat) :
    functional_profile w [a, b] threads none =
      Except.ok
        ({ w with
           singles := w.singles ++
             [{ template := "humann2_join_tables --input [args[0]] --output [targets[0]]",
                depends := [⟨w.outdir ++ ["genes"], a.base ++ ".genefamilies.tsv" ++ ".relab"⟩,
                            ⟨w.outdir ++ ["genes"], b.base ++ ".genefamilies.tsv" ++ ".relab"⟩],
                targets := [⟨w.outdir, "genefamilies_relab.tsv"⟩],
                args := [Arg.dirArg (w.outdir ++ ["genes"])] },
              { template := "humann2_join_tables --input [args[0]] --output [targets[0]]",
                depends := [⟨w.outdir ++ ["ecs"], a.base ++ ".genefamilies.tsv" ++ ".ecs" ++ ".relab"⟩,
                            ⟨w.outdir ++ ["ecs"], b.base ++ ".genefamilies.tsv" ++ ".ecs" ++ ".relab"⟩],
                targets := [⟨w.outdir, "ecs_relab.tsv"⟩],
                args := [Arg.dirArg (w.outdir ++ ["ecs"])] },
              { template := "humann2_join_tables --input [args[0]] --output [targets[0]]",
                depends := [⟨w.outdir ++ ["pathways"], a.base ++ ".pathabundance.tsv" ++ ".relab"⟩,
                            ⟨w.outdir ++ ["pathways"], b.base ++ ".pathabundance.tsv" ++ ".relab"⟩],
                targets := [⟨w.outdir, "pathabundance_relab.tsv"⟩],
                args := [Arg.dirArg (w.outdir ++ ["pathways"])] }],
           groups := w.groups ++
             [{ template := "humann2 --input [depends[0]] --output [args[0]] --threads [args[1]]" ++ "",
                depends := [[a], [b]],
                targets := [[⟨w.outdir ++ ["humann2"], a.base ++ ".genefamilies.tsv"⟩,
                             ⟨w.outdir ++ ["humann2"], a.base ++ ".pathabundance.tsv"⟩,
                             ⟨w.outdir ++ ["humann2"], a.base ++ ".pathcoverage.tsv"⟩],
                            [⟨w.outdir ++ ["humann2"], b.base ++ ".genefamilies.tsv"⟩,
                             ⟨w.outdir ++ ["humann2"], b.base ++ ".pathabundance.tsv"⟩,
                             ⟨w.outdir ++ ["humann2"], b.base ++ ".pathcoverage.tsv"⟩]],
                args := [Arg.dirArg (w.outdir ++ ["humann2"]), Arg.natArg threads],
                time := 1440, mem := 36864, cpus := threads },
              { template := "humann2_regroup_table --input [depends[0]] --output [targets[0]] --groups uniref90_level4ec",
                depends := [[⟨w.outdir ++ ["humann2"], a.base ++ ".genefamilies.tsv"⟩],
                            [⟨w.outdir ++ ["humann2"], b.base ++ ".genefamilies.tsv"⟩]],
                targets := [[⟨w.outdir ++ ["humann2"], a.base ++ ".genefamilies.tsv" ++ ".ecs"⟩],
                            [⟨w.outdir ++ ["humann2"], b.base ++ ".genefamilies.tsv" ++ ".ecs"⟩]],
                args := [], time := 600, mem := 5120, cpus := 1 },
              { template := "humann2_renorm_table --input [depends[0]] --output [targets[0]] --units relab",
                depends := [[⟨w.outdir ++ ["humann2"], a.base ++ ".genefamilies.tsv"⟩],
                            [⟨w.outdir ++ ["humann2"], b.base ++ ".genefamilies.tsv"⟩],
                            [⟨w.outdir ++ ["humann2"], a.base ++ ".genefamilies.tsv" ++ ".ecs"⟩],
                            [⟨w.outdir ++ ["humann2"], b.base ++ ".genefamilies.tsv" ++ ".ecs"⟩],
                            [⟨w.outdir ++ ["humann2"], a.base ++ ".pathabundance.tsv"⟩],
                            [⟨w.outdir ++ ["humann2"], b.base ++ ".pathabundance.tsv"⟩]],
                targets := [[⟨w.outdir ++ ["genes"], a.base ++ ".genefamilies.tsv" ++ ".relab"⟩],
                            [⟨w.outdir ++ ["genes"], b.base ++ ".genefamilies.tsv" ++ ".relab"⟩],
                            [⟨w.outdir ++ ["ecs"], a.base ++ ".genefamilies.tsv" ++ ".ecs" ++ ".relab"⟩],
                            [⟨w.outdir ++ ["ecs"], b.base ++ ".genefamilies.tsv" ++ ".ecs" ++ ".relab"⟩],
                            [⟨w.outdir ++ ["pathways"], a.base ++ ".pathabundance.tsv" ++ ".relab"⟩],
                            [⟨w.outdir ++ ["pathways"], b.base ++ ".pathabundance.tsv" ++ ".relab"⟩]],
                args := [], time := 300, mem := 5120, cpus := 1 }] },
         ⟨w.outdir, "genefamilies_relab.tsv"⟩, ⟨w.outdir, "ecs_relab.tsv"⟩,
         ⟨w.outdir, "pathabundance_relab.tsv"⟩) := by
  have h := functional_profile_none_eq w a [b] threads
  exact h

/-- C8 counterexample: at the concrete calls with an empty input list,
each stage function errors with a plain index error (from indexing the
empty derived output list); no InvalidInput / MissingUpstreamOutput
error carrying a stage-naming message is ever produced, so the claim as
stated is false. -/
theorem c8_counterexample_no_invalid_input_error :
    quality_control sampleW [] 4 none = Except.error Err.indexError ∧
    failsWithInvalidInput (quality_control sampleW [] 4 none) = false ∧
    taxonomic_profile sampleW [] 4 = Except.error Err.indexError ∧
    failsWithInvalidInput (taxonomic_profile sampleW [] 4) = false ∧
    functional_profile sampleW [] 4 none = Except.error Err.indexError ∧
    failsWithInvalidInput (functional_profile sampleW [] 4 none) = false :=
  ⟨rfl, rfl, rfl, rfl, rfl, rfl⟩

/-- C8 (amended): every stage function invoked with an empty input list
fails eagerly during graph assembly, before any task is registered, but
via a generic index error raised while indexing the empty derived output
list -- not with InvalidInput / MissingUpstreamOutput semantics or a
message identifying the offending stage and input. -/
theorem c8_empty_inputs_fail_eagerly (w : Workflow) (threads : Nat)
    (dbs : Option Databases) (tp : Option (List Path)) :
    quality_control w [] threads dbs = Except.error Err.indexError ∧
    taxonomic_profile w [] threads = Except.error Err.indexError ∧
    functional_profile w [] threads tp = Except.error Err.indexError :=
  ⟨rfl, rfl, rfl⟩

/-- C10: `functional_profile` with an empty `taxonomic_profiles` list
behaves exactly as if the argument were `None`, because the branch tests
the argument's truthiness: the two calls are equal outright, and for
non-empty inputs the primary humann2 group's template contains no
`--taxonomic-profile` option and its dependency batch is the plain list
of input files, one length-1 dependency tuple per task. -/
theorem c10_empty_profiles_behave_as_none (w : Workflow) (inputs : List Path)
    (threads : Nat) :
    functional_profile w inputs threads (some []) =
      functional_profile w inputs threads none ∧
    (∀ i rest, inputs = i :: rest →
      functional_profile w inputs threads (some []) =
        Except.ok
          ({ w with
             singles := w.singles ++
               [fpMergeGene w inputs, fpMergeEc w inputs, fpMergePath w inputs],
             groups := w.groups ++
               [fpMainGroupPlain w inputs threads, fpRegroup w inputs, fpRenorm w inputs] },
           ⟨w.outdir, "genefamilies_relab.tsv"⟩, ⟨w.outdir, "ecs_relab.tsv"⟩,
           ⟨w.outdir, "pathabundance_relab.tsv"⟩) ∧
      occursStr "--taxonomic-profile" (fpMainGroupPlain w inputs threads).template = 0 ∧
      (fpMainGroupPlain w inputs threads).depends = singletons inputs ∧
      ∀ d ∈ (fpMainGroupPlain w inputs threads).depends, d.length = 1) := by
  refine ⟨rfl, ?_⟩
  intro i rest hcons
  subst hcons
  refine ⟨?_, ?_, rfl, ?_⟩
  · exact functional_profile_none_eq w i rest threads
  · exact (by decide : occursStr "--taxonomic-profile"
      "humann2 --input [depends[0]] --output [args[0]] --threads [args[1]]" = 0)
  · intro d hd
    obtain ⟨x, hx⟩ := mem_singletons hd
    rw [hx]
    rfl

/-- C10 witness: the equal-behavior property at a concrete call. -/
theorem c10_empty_profiles_behave_as_none_witness :
    functional_profile sampleW [sIn1, sIn2] 1 (some []) =
      functional_profile sampleW [sIn1, sIn2] 1 none ∧
    (fpMainGroupPlain sampleW [sIn1, sIn2] 1).depends = singletons [sIn1, sIn2] ∧
    occursStr "--taxonomic-profile" (fpMainGroupPlain sampleW [sIn1, sIn2] 1).template = 0 := by
  have h := c10_empty_profiles_behave_as_none sampleW [sIn1, sIn2] 1
  have h2 := h.2 sIn1 [sIn2] rfl
  exact ⟨h.1, h2.2.2.1, h2.2.1⟩

/-- C5: when a non-empty taxonomic-profile sequence of matching length is
supplied to `functional_profile`, the dependency batch passed to the
primary humann2 Task Group pairs each input file with its profile, one
length-2 tuple per task; when taxonomic profiles are not supplied, the
batch holds one length-1 entry (the input file alone) per task. -/
theorem c5_profile_dependency_arity (w : Workflow) (i : Path) (rest : List Path)
    (q : Path) (qs : List Path) (threads : Nat) (hlen : qs.length = rest.length) :
    (∃ res, functional_profile w (i :: rest) threads (some (q :: qs)) = Except.ok res ∧
      (res.1.groups.drop w.groups.length).head? =
        some (fpMainGroupPaired w (i :: rest) (q :: qs) threads) ∧
      (fpMainGroupPaired w (i :: rest) (q :: qs) threads).depends =
        zipPair (i :: rest) (q :: qs) ∧
      ∀ d ∈ (fpMainGroupPaired w (i :: rest) (q :: qs) threads).depends, d.length = 2) ∧
    (∃ res, functional_profile w (i :: rest) threads none = Except.ok res ∧
      (res.1.groups.drop w.groups.length).head? =
        some (fpMainGroupPlain w (i :: rest) threads) ∧
      (fpMainGroupPlain w (i :: rest) threads).depends = singletons (i :: rest) ∧
      ∀ d ∈ (fpMainGroupPlain w (i :: rest) threads).depends, d.length = 1) := by
  constructor
  · refine ⟨_, functional_profile_some_eq w i rest q qs threads hlen, ?_, rfl, ?_⟩
    · rw [List.drop_left]
      rfl
    · intro d hd
      obtain ⟨x, y, hxy⟩ := mem_zipPair hd
      rw [hxy]
      rfl
  · refine ⟨_, functional_profile_none_eq w i rest threads, ?_, rfl, ?_⟩
    · rw [List.drop_left]
      rfl
    · intro d hd
      obtain ⟨x, hx⟩ := mem_singletons hd
      rw [hx]
      rfl

/-- C5 witness: the dependency arities at a concrete call with two
inputs and two profiles. -/
theorem c5_profile_dependency_arity_witness :
    (∃ res, functional_profile sampleW [sIn1, sIn2] 1 (some [sTp1, sTp2]) = Except.ok res ∧
      (res.1.groups.drop sampleW.groups.length).head? =
        some (fpMainGroupPaired sampleW [sIn1, sIn2] [sTp1, sTp2] 1) ∧
      (fpMainGroupPaired sampleW [sIn1, sIn2] [sTp1, sTp2] 1).depends =
        zipPair [sIn1, sIn2] [sTp1, sTp2] ∧
      ∀ d ∈ (fpMainGroupPaired sampleW [sIn1, sIn2] [sTp1, sTp2] 1).depends, d.length = 2) ∧
    (∃ res, functional_profile sampleW [sIn1, sIn2] 1 none = Except.ok res ∧
      (res.1.groups.drop sampleW.groups.length).head? =
        some (fpMainGroupPlain sampleW [sIn1, sIn2] 1) ∧
      (fpMainGroupPlain sampleW [sIn1, sIn2] 1).depends = singletons [sIn1, sIn2] ∧
      ∀ d ∈ (fpMainGroupPlain sampleW [sIn1, sIn2] 1).depends, d.length = 1) :=
  c5_profile_dependency_arity sampleW sIn1 [sIn2] sTp1 [sTp2] 1 (by decide)

/-- C7: every Task Group registration made by the three stage functions
supplies a dependency batch and a target batch of equal length -- for N
input files, N and N for each per-sample group and 3N and 3N for the
normalization group over the concatenated batches -- and a violation of
the equal-length requirement fails construction with a length-mismatch
error rather than silently truncating or padding. -/
theorem c7_equal_length_batches (w : Workflow) (i : Path) (rest : List Path)
    (q : Path) (qs : List Path) (threads : Nat) (dbs : Option Databases)
    (hd : dbsOK dbs = true) (hlen : qs.length = rest.length) :
    (∀ (w' : Workflow) (template : String) (d t : List (List Path)) (args : List Arg)
        (time mem cpus : Nat), d.length ≠ t.length →
      w'.add_task_group_gridable template d t args time mem cpus =
        Except.error Err.lengthMismatch) ∧
    (∃ res, quality_control w (i :: rest) threads dbs = Except.ok res ∧
      (res.1.groups.drop w.groups.length).map
          (fun g => (g.depends.length, g.targets.length)) =
        [((i :: rest).length, (i :: rest).length)]) ∧
    (∃ res, taxonomic_profile w (i :: rest) threads = Except.ok res ∧
      (res.1.groups.drop w.groups.length).map
          (fun g => (g.depends.length, g.targets.length)) =
        [((i :: rest).length, (i :: rest).length)]) ∧
    (∃ res, functional_profile w (i :: rest) threads none = Except.ok res ∧
      (res.1.groups.drop w.groups.length).map
          (fun g => (g.depends.length, g.targets.length)) =
        [((i :: rest).length, (i :: rest).length),
         ((i :: rest).length, (i :: rest).length),
         (3 * (i :: rest).length, 3 * (i :: rest).length)]) ∧
    (∃ res, functional_profile w (i :: rest) threads (some (q :: qs)) = Except.ok res ∧
      (res.1.groups.drop w.groups.length).map
          (fun g => (g.depends.length, g.targets.length)) =
        [((i :: rest).length, (i :: rest).length),
         ((i :: rest).length, (i :: rest).length),
         (3 * (i :: rest).length, 3 * (i :: rest).length)]) := by
  refine ⟨?_, ?_, ?_, ?_, ?_⟩
  · intro w' template d t args time mem cpus h
    unfold Workflow.add_task_group_gridable
    rw [if_pos h]
  · refine ⟨_, quality_control_eq w i rest threads dbs hd, ?_⟩
    rw [List.drop_left]
    simp [qcGroup, singletons, Workflow.name_output_files]
  · refine ⟨_, taxonomic_profile_eq w i rest threads, ?_⟩
    rw [List.drop_left]
    simp [taxGroup, singletons, zipPair, Workflow.name_output_files, List.length_zipWith]
  · refine ⟨_, functional_profile_none_eq w i rest threads, ?_⟩
    rw [List.drop_left]
    simp [fpMainGroupPlain, fpRegroup, fpRenorm, fpGene, fpPathAb, fpPathCov, fpEc,
      fpNormGene, fpNormEc, fpNormPathAb, singletons, zip3,
      Workflow.name_output_files, List.length_zipWith, List.length_zip]
    omega
  · refine ⟨_, functional_profile_some_eq w i rest q qs threads hlen, ?_⟩
    rw [List.drop_left]
    simp [fpMainGroupPaired, fpRegroup, fpRenorm, fpGene, fpPathAb, fpPathCov, fpEc,
      fpNormGene, fpNormEc, fpNormPathAb, singletons, zipPair, zip3,
      Workflow.name_output_files, List.length_zipWith, List.length_zip, hlen]
    omega

/-- C7 witness: the equal-length facts at a concrete call with two
inputs, and a concrete violating registration that fails construction. -/
theorem c7_equal_length_batches_witness :
    (sampleW.add_task_group_gridable "x" [[sIn1]] [] [] 0 0 0 =
      Except.error Err.lengthMismatch) ∧
    (∃ res, quality_control sampleW [sIn1, sIn2] 4 none = Except.ok res ∧
      (res.1.groups.drop sampleW.groups.length).map
          (fun g => (g.depends.length, g.targets.length)) = [(2, 2)]) := by
  have h := c7_equal_length_batches sampleW sIn1 [sIn2] sTp1 [sTp2] 4 none
    (by decide) (by decide)
  exact ⟨h.1 sampleW "x" [[sIn1]] [] [] 0 0 0 (by decide), h.2.1⟩

/-- C6: every placeholder index in the command template of every task
constructed by the three stage functions resolves to a valid index into
that task's dependency, target, or argument sequence -- each call
succeeds and `newTasksOK` holds of everything it registered.  In
particular, `functional_profile` references `[depends[1]]` exactly in
the branch whose dependency tuples have length 2 (without profiles the
template has no such reference and tuples have length 1), and
`taxonomic_profile` references `[targets[1]]` only with paired
(profile, sam) target tuples of length 2. -/
theorem c6_placeholders_resolve (w : Workflow) (i : Path) (rest : List Path)
    (q : Path) (qs : List Path) (threads : Nat) (dbs : Option Databases)
    (hd : dbsOK dbs = true) (hlen : qs.length = rest.length) :
    (∃ res, quality_control w (i :: rest) threads dbs = Except.ok res ∧
      newTasksOK w res.1 = true) ∧
    (∃ res, taxonomic_profile w (i :: rest) threads = Except.ok res ∧
      newTasksOK w res.1 = true ∧
      res.1.groups.drop w.groups.length = [taxGroup w (i :: rest) threads] ∧
      (RefKind.tgt, 1) ∈ refs (taxGroup w (i :: rest) threads).template.data ∧
      ∀ t ∈ (taxGroup w (i :: rest) threads).targets, t.length = 2) ∧
    (∃ res, functional_profile w (i :: rest) threads none = Except.ok res ∧
      newTasksOK w res.1 = true ∧
      occursStr "[depends[1]]" (fpMainGroupPlain w (i :: rest) threads).template = 0 ∧
      ∀ d ∈ (fpMainGroupPlain w (i :: rest) threads).depends, d.length = 1) ∧
    (∃ res, functional_profile w (i :: rest) threads (some (q :: qs)) = Except.ok res ∧
      newTasksOK w res.1 = true ∧
      (RefKind.dep, 1) ∈ refs (fpMainGroupPaired w (i :: rest) (q :: qs) threads).template.data ∧
      ∀ d ∈ (fpMainGroupPaired w (i :: rest) (q :: qs) threads).depends, d.length = 2) := by
  refine ⟨?_, ?_, ?_, ?_⟩
  · refine ⟨_, quality_control_eq w i rest threads dbs hd, ?_⟩
    simp [newTasksOK, List.drop_left, List.drop_length,
      qcGroup_OK w (i :: rest) threads dbs hd]
  · refine ⟨_, taxonomic_profile_eq w i rest threads, ?_, ?_, ?_, ?_⟩
    · simp [newTasksOK, List.drop_left, List.drop_length,
        taxGroup_OK w (i :: rest) threads, singleOK]
      rfl
    · rw [List.drop_left]
    · exact (by decide : (RefKind.tgt, 1) ∈ refs
        "metaphlan2.py [depends[0]] --input_type fastq --output_file [targets[0]] --samout [targets[1]] --nproc [args[0]] --no_map --tmp_dir [args[1]]".data)
    · intro t ht
      obtain ⟨a, b, hab⟩ := mem_zipPair ht
      rw [hab]
      rfl
  · refine ⟨_, functional_profile_none_eq w i rest threads, ?_, ?_, ?_⟩
    · simp [newTasksOK, List.drop_left, List.drop_length,
        fpMainGroupPlain_OK w (i :: rest) threads, fpRegroup_OK w (i :: rest),
        fpRenorm_OK w (i :: rest), singleOK]
      exact ⟨rfl, rfl, rfl⟩
    · exact (by decide : occursStr "[depends[1]]"
        "humann2 --input [depends[0]] --output [args[0]] --threads [args[1]]" = 0)
    · intro d hd'
      obtain ⟨x, hx⟩ := mem_singletons hd'
      rw [hx]
      rfl
  · refine ⟨_, functional_profile_some_eq w i rest q qs threads hlen, ?_, ?_, ?_⟩
    · simp [newTasksOK, List.drop_left, List.drop_length,
        fpMainGroupPaired_OK w (i :: rest) (q :: qs) threads (by simp [hlen]),
        fpRegroup_OK w (i :: rest), fpRenorm_OK w (i :: rest), singleOK]
      exact ⟨rfl, rfl, rfl⟩
    · exact (by decide : (RefKind.dep, 1) ∈ refs
        "humann2 --input [depends[0]] --output [args[0]] --threads [args[1]] --taxonomic-profile [depends[1]] ".data)
    · intro d hd'
      obtain ⟨a, b, hab⟩ := mem_zipPair hd'
      rw [hab]
      rfl

/-- C6 witness: placeholder validity of everything registered by the
three stage functions at a concrete call with two inputs, two profiles
and one database. -/
theorem c6_placeholders_resolve_witness :
    (∃ res, quality_control sampleW [sIn1, sIn2] 4 (some (Databases.single "hg38")) =
      Except.ok res ∧ newTasksOK sampleW res.1 = true) ∧
    (∃ res, taxonomic_profile sampleW [sIn1, sIn2] 4 = Except.ok res ∧
      newTasksOK sampleW res.1 = true) ∧
    (∃ res, functional_profile sampleW [sIn1, sIn2] 4 (some [sTp1, sTp2]) =
      Except.ok res ∧ newTasksOK sampleW res.1 = true) := by
  have h := c6_placeholders_resolve sampleW sIn1 [sIn2] sTp1 [sTp2] 4
    (some (Databases.single "hg38")) (by decide) (by decide)
  obtain ⟨h1, ⟨r2, hr2, ht2, _⟩, _, ⟨r4, hr4, ht4, _⟩⟩ := h
  exact ⟨h1, ⟨r2, hr2, ht2⟩, ⟨r4, hr4, ht4⟩⟩

/-- C4 counterexample: supplying a list of zero databases
(`databases = []`) yields a kneaddata command template containing one
`--reference-db` token (a dangling flag with no value), where the claim
requires exactly N = 0 clauses for a list of N databases. -/
theorem c4_counterexample_empty_list :
    (match quality_control sampleW [sIn1] 1 (some (Databases.listOf [])) with
     | Except.ok res => res.1.groups.map
         (fun g => (occursStr "--reference-db" g.template, g.template))
     | Except.error _ => []) =
      [(1, "kneaddata --input [depends[0]] --output [args[0]] --threads [args[1]]  --reference-db ")] := by
  decide

/-- C4 (amended): with `databases = None` the kneaddata command template
contains no `--reference-db` clause; with a single database it contains
exactly one clause carrying that value; with a non-empty list of N
databases it contains exactly N clauses, one per database, each value
preserved in order in the pre-rendered fragment; an empty database list,
however, yields a single dangling `--reference-db` token with no value. -/
theorem c4_database_clause_counts (w : Workflow) (i : Path) (rest : List Path)
    (threads : Nat) :
    (∃ res, quality_control w (i :: rest) threads none = Except.ok res ∧
      (res.1.groups.drop w.groups.length).map (fun g => g.template) =
        [qcBaseTemplate ++ ""] ∧
      occursStr "--reference-db" (qcBaseTemplate ++ "") = 0) ∧
    (∀ db : String, goodDb db = true →
      ∃ res, quality_control w (i :: rest) threads (some (Databases.single db)) =
          Except.ok res ∧
        (res.1.groups.drop w.groups.length).map (fun g => g.template) =
          [qcBaseTemplate ++ (" --reference-db " ++ db)] ∧
        occursStr "--reference-db" (qcBaseTemplate ++ (" --reference-db " ++ db)) = 1) ∧
    (∀ dbs : List String, dbs ≠ [] → (∀ db ∈ dbs, goodDb db = true) →
      ∃ res, quality_control w (i :: rest) threads (some (Databases.listOf dbs)) =
          Except.ok res ∧
        (res.1.groups.drop w.groups.length).map (fun g => g.template) =
          [qcBaseTemplate ++ (" --reference-db " ++ joinWith " --reference-db " dbs)] ∧
        occursStr "--reference-db"
          (qcBaseTemplate ++ (" --reference-db " ++ joinWith " --reference-db " dbs)) =
          dbs.length) ∧
    (∃ res, quality_control w (i :: rest) threads (some (Databases.listOf [])) =
        Except.ok res ∧
      occursStr "--reference-db"
        (qcBaseTemplate ++ (" --reference-db " ++ joinWith " --reference-db " [])) = 1) := by
  refine ⟨?_, ?_, ?_, ?_⟩
  · refine ⟨_, quality_control_eq w i rest threads none rfl, ?_, ?_⟩
    · rw [List.drop_left]
      rfl
    · rw [qc_count_split]
      decide
  · intro db hdb
    have hd : dbsOK (some (Databases.single db)) = true := by
      simp only [dbsOK, Bool.not_eq_true', decide_eq_false_iff_not]
      exact goodDb_no_bracket hdb
    refine ⟨_, quality_control_eq w i rest threads (some (Databases.single db)) hd, ?_, ?_⟩
    · rw [List.drop_left]
      rfl
    · rw [qc_count_split, data_append, occurs_glue_cons, goodDb_count hdb]
  · intro dbs hne hgood
    have hd : dbsOK (some (Databases.listOf dbs)) = true := by
      simp only [dbsOK, List.all_eq_true, Bool.not_eq_true', decide_eq_false_iff_not]
      exact fun db hdb => goodDb_no_bracket (hgood db hdb)
    refine ⟨_, quality_control_eq w i rest threads (some (Databases.listOf dbs)) hd, ?_, ?_⟩
    · rw [List.drop_left]
      rfl
    · rw [qc_count_split]
      exact occurs_frag_list dbs hne hgood
  · refine ⟨_, quality_control_eq w i rest threads (some (Databases.listOf [])) rfl, ?_⟩
    rw [qc_count_split]
    decide

/-- C4 witness: the amended clause counts at a concrete call: no
databases, one database, a two-database list, and the empty list. -/
theorem c4_database_clause_counts_witness :
    (∃ res, quality_control sampleW [sIn1] 1 none = Except.ok res ∧
      (res.1.groups.drop sampleW.groups.length).map (fun g => g.template) =
        [qcBaseTemplate ++ ""] ∧
      occursStr "--reference-db" (qcBaseTemplate ++ "") = 0) ∧
    (∃ res, quality_control sampleW [sIn1] 1 (some (Databases.single "hg38")) =
        Except.ok res ∧
      (res.1.groups.drop sampleW.groups.length).map (fun g => g.template) =
        [qcBaseTemplate ++ (" --reference-db " ++ "hg38")] ∧
      occursStr "--reference-db" (qcBaseTemplate ++ (" --reference-db " ++ "hg38")) = 1) ∧
    (∃ res, quality_control sampleW [sIn1] 1
        (some (Databases.listOf ["hg38", "silva"])) = Except.ok res ∧
      (res.1.groups.drop sampleW.groups.length).map (fun g => g.template) =
        [qcBaseTemplate ++ (" --reference-db " ++
          joinWith " --reference-db " ["hg38", "silva"])] ∧
      occursStr "--reference-db" (qcBaseTemplate ++ (" --reference-db " ++
        joinWith " --reference-db " ["hg38", "silva"])) = 2) := by
  have h := c4_database_clause_counts sampleW sIn1 [] 1
  exact ⟨h.1, h.2.1 "hg38" (by decide),
    h.2.2.1 ["hg38", "silva"] (by decide) (by decide)⟩

/-- C9 counterexample: at a concrete call with one database, the
pre-rendered `--reference-db` fragment is concatenated directly into the
command template string; the registered group's args sequence holds only
the output folder and the thread count -- no entry holds the fragment and
no `[args[i]]` placeholder refers to it (the template's references are
exactly `[depends[0]]`, `[args[0]]`, `[args[1]]`), so the claim that the
fragment is passed to the templater as an argument-reference is false. -/
theorem c9_counterexample_fragment_inlined :
    (match quality_control sampleW [sIn1] 1 (some (Databases.single "hg38")) with
     | Except.ok res => res.1.groups.map (fun g => (g.template, g.args))
     | Except.error _ => []) =
      [("kneaddata --input [depends[0]] --output [args[0]] --threads [args[1]]  --reference-db hg38",
        [Arg.dirArg ["out", "kneaddata"], Arg.natArg 1])] ∧
    refs "kneaddata --input [depends[0]] --output [args[0]] --threads [args[1]]  --reference-db hg38".data =
      [(RefKind.dep, 0), (RefKind.arg, 0), (RefKind.arg, 1)] := by
  constructor
  · decide
  · decide

/-- C9 (amended): the variable-arity reference-database options are
flattened into a single string fragment before templating, but that
fragment is concatenated directly into the command template string, not
passed as an entry of the args sequence: the registered group's args are
exactly the output folder and the thread count, and the template's
placeholder references are exactly `[depends[0]]`, `[args[0]]`,
`[args[1]]` (no reference to any flattened fragment; the templater
performs no looping). -/
theorem c9_fragment_flattened_inline (w : Workflow) (i : Path) (rest : List Path)
    (threads : Nat) (dbs : Option Databases) (hd : dbsOK dbs = true) :
    ∃ res, quality_control w (i :: rest) threads dbs = Except.ok res ∧
      res.1.groups.drop w.groups.length = [qcGroup w (i :: rest) threads dbs] ∧
      (qcGroup w (i :: rest) threads dbs).template =
        qcBaseTemplate ++ optionalDatabaseArgs dbs ∧
      (qcGroup w (i :: rest) threads dbs).args =
        [Arg.dirArg (w.outdir ++ ["kneaddata"]), Arg.natArg threads] ∧
      refs (qcGroup w (i :: rest) threads dbs).template.data =
        [(RefKind.dep, 0), (RefKind.arg, 0), (RefKind.arg, 1)] := by
  refine ⟨_, quality_control_eq w i rest threads dbs hd, ?_, rfl, rfl, ?_⟩
  · rw [List.drop_left]
  · exact qc_template_refs dbs hd

/-- C9 witness: the amended statement at a concrete call with one
database. -/
theorem c9_fragment_flattened_inline_witness :
    ∃ res, quality_control sampleW [sIn1] 1 (some (Databases.single "hg38")) =
        Except.ok res ∧
      res.1.groups.drop sampleW.groups.length =
        [qcGroup sampleW [sIn1] 1 (some (Databases.single "hg38"))] ∧
      (qcGroup sampleW [sIn1] 1 (some (Databases.single "hg38"))).template =
        qcBaseTemplate ++ optionalDatabaseArgs (some (Databases.single "hg38")) ∧
      (qcGroup sampleW [sIn1] 1 (some (Databases.single "hg38"))).args =
        [Arg.dirArg (sampleW.outdir ++ ["kneaddata"]), Arg.natArg 1] ∧
      refs (qcGroup sampleW [sIn1] 1 (some (Databases.single "hg38"))).template.data =
        [(RefKind.dep, 0), (RefKind.arg, 0), (RefKind.arg, 1)] :=
  c9_fragment_flattened_inline sampleW sIn1 [] 1 (some (Databases.single "hg38"))
    (by decide)

end WGS
